import Mathlib

/-!
# Verification of the go-gps-simulator core against its specification

This file gives a shallow embedding of the claim-relevant parts of the
go-gps-simulator repository and proves (or refutes) the frozen claims about it.

The embedding has two layers:

* a computable layer over `Nat`/`Int`/`Rat`/`String` for the NMEA sentence
  encoder (`nmea.go`), the satellite random-walk model, the replay cursor
  state machine (`updateReplayPosition`, `hasSequentialTimestamps`) and the
  configuration validator / `UpdateConfig` control surface.  Go `time.Time`
  and `time.Duration` values are modelled as integer nanosecond counts,
  which is exactly their comparison/arithmetic semantics; Go `float64`
  values that only ever meet decidable comparisons are modelled as `Rat`.

* a real-number layer for the motion model (`updateSpeedAndCourse`,
  `updatePosition`, `calculateNewPosition`, `calculateDistance`,
  `calculateBearing`), whose float64 arithmetic involves transcendental
  functions and is modelled over `ℝ` (so these definitions are necessarily
  noncomputable).  `math.Atan2` is modelled by an explicit case split
  matching Go's documented semantics on finite inputs.

Go sources modelled here: `nmea.go` (package main, `src/unnamed/part_002`),
`gps/simulator.go`, the legacy `package gps` simulator in
`src/unnamed/part_004`, and `Config.Validate` / `UpdateConfig`.
-/

namespace GpsSim

/-! ## NMEA checksum and sentence framing (`nmea.go`)

Go strings are byte strings; NMEA sentences are ASCII, so a Lean `String`
whose characters are all `< 128` has the same byte sequence as the Go
string.  `sentenceBytes` is that byte sequence. -/

/-- The byte sequence of an (ASCII) NMEA sentence. -/
def sentenceBytes (s : String) : List Nat :=
  s.data.map Char.toNat

/-- XOR of all bytes of `s` after the leading character, exactly the loop
`for i := 1; i < len(sentence); i++ { checksum ^= sentence[i] }`
(accumulator starts at `0` and skips index `0`). -/
def nmeaXor (s : String) : Nat :=
  ((sentenceBytes s).drop 1).foldl (fun a b => a ^^^ b) 0

/-- Uppercase hexadecimal digit, as produced by Go's `%X` verb. -/
def hexDigit (n : Nat) : Char :=
  if n < 10 then Char.ofNat (48 + n) else Char.ofNat (55 + n)

/-- Go's `fmt.Sprintf("%02X", b)` for a `byte` value `b < 256`:
exactly two uppercase hexadecimal digits. -/
def hex2 (b : Nat) : String :=
  String.mk [hexDigit (b / 16), hexDigit (b % 16)]

/-- `calculateChecksum` from `nmea.go`: XOR every byte after the leading
`$`, render as two uppercase hex digits. -/
def calculateChecksum (s : String) : String :=
  hex2 (nmeaXor s)

/-- `formatNMEA` from `nmea.go`: `fmt.Sprintf("%s*%s\r\n", sentence, checksum)`. -/
def formatNMEA (s : String) : String :=
  s ++ "*" ++ calculateChecksum s ++ "\r\n"

/-- Value of an uppercase hexadecimal digit character. -/
def hexVal (c : Char) : Nat :=
  if 65 ≤ c.toNat then c.toNat - 55 else c.toNat - 48

/-- The sixteen uppercase hexadecimal digit characters. -/
def upperHexDigits : List Char :=
  ['0', '1', '2', '3', '4', '5', '6', '7', '8', '9', 'A', 'B', 'C', 'D', 'E', 'F']

/-! ## Satellites and the GSV sentence generator (`nmea.go` `generateGSV`) -/

/-- `Satellite` from `types.go`: all fields are Go `int`s. -/
structure Satellite where
  id : Int
  elevation : Int
  azimuth : Int
  snr : Int
  deriving DecidableEq, Repr

/-- Decimal digit character. -/
def digitChar (d : Nat) : Char :=
  ['0', '1', '2', '3', '4', '5', '6', '7', '8', '9'].getD d '0'

/-- Decimal digit expansion of a natural number, most significant first
(the digit string produced by Go's `%d` verb for a non-negative value). -/
def natChars (n : Nat) : List Char :=
  if _h : n < 10 then [digitChar n]
  else natChars (n / 10) ++ [digitChar (n % 10)]
termination_by n
decreasing_by exact Nat.div_lt_self (by omega) (by norm_num)

/-- Go `fmt.Sprintf("%d", n)` for a non-negative value. -/
def natStr (n : Nat) : String :=
  String.mk (natChars n)

/-- Left-pad a rendered number with zeros to width `w` (Go zero-padding). -/
def padZeros (w : Nat) (s : String) : String :=
  String.mk (List.replicate (w - s.length) '0') ++ s

/-- Go `fmt.Sprintf("%0wd", n)` for a natural number. -/
def goPadNat (w : Nat) (n : Nat) : String :=
  padZeros w (natStr n)

/-- Go `fmt.Sprintf("%0wd", i)` for an `int`: the sign is emitted before
the zero padding and counts towards the width. -/
def goPadInt (w : Nat) (i : Int) : String :=
  if i < 0 then "-" ++ padZeros (w - 1) (natStr (-i).toNat)
  else padZeros w (natStr i.toNat)

/-- The `",%02d,%02d,%03d,%02d"` blocks appended for each satellite of a
GSV sentence (the inner loop of `generateGSV`). -/
def satFields : List Satellite → String
  | [] => ""
  | sat :: rest =>
      "," ++ goPadInt 2 sat.id ++ "," ++ goPadInt 2 sat.elevation ++ "," ++
        goPadInt 3 sat.azimuth ++ "," ++ goPadInt 2 sat.snr ++ satFields rest

/-- `k` copies of the `",,,,"` blank-satellite padding block. -/
def blanks : Nat → String
  | 0 => ""
  | k + 1 => ",,,," ++ blanks k

/-- One GSV sentence of `generateGSV` (`j = sentenceNum - 1`):
header `$GPGSV,<totalSentences>,<sentenceNum>,<%02d totalSats>`, then the
satellite blocks for indices `[4j, min (4j+4) totalSats)`, then `",,,,"`
for each of the `4 - (endIdx - startIdx)` missing slots, checksummed. -/
def gsvSentence (sats : List Satellite) (j : Nat) : String :=
  let totalSats := sats.length
  let totalSentences := (totalSats + 3) / 4
  let slice := (sats.drop (j * 4)).take 4
  formatNMEA ("$GPGSV," ++ natStr totalSentences ++ "," ++ natStr (j + 1) ++ "," ++
    goPadNat 2 totalSats ++ satFields slice ++ blanks (4 - slice.length))

/-- `generateGSV` from `nmea.go`: one sentence per group of four
satellites, `totalSentences = (totalSats + 3) / 4`. -/
def generateGSV (sats : List Satellite) : List String :=
  (List.range ((sats.length + 3) / 4)).map (gsvSentence sats)

/-- Number of commas (field separators) in a sentence. -/
def commaCount (s : String) : Nat :=
  s.data.count ','

/-- Twelve satellites, for instantiating the GSV claims concretely. -/
def gsvExampleSats : List Satellite :=
  (List.range 12).map (fun i => ⟨Int.ofNat i + 1, 45, 90, 40⟩)

/-! ## Satellite random walk (`updateSatellites` in `gps/simulator.go`)

One satellite step.  `rE`/`rA` are the two `rand.Intn(3)` draws (in `[0,3)`)
and `rS` the `rand.Intn(6)` draw (in `[0,6)`).  Go `%` on `int` truncates
toward zero, which is `Int.tmod`. -/

/-- One per-satellite update of `updateSatellites`: elevation and azimuth
step by `rand.Intn(3) - 1`, azimuth wraps as `(az + step + 360) % 360`,
elevation is clamped to `[5,85]`, SNR steps by `rand.Intn(6) - 3` and is
clamped to `[15,55]`. -/
def updateSatellite (sat : Satellite) (rE rA rS : Int) : Satellite :=
  let elev1 := sat.elevation + (rE - 1)
  let az1 := Int.tmod (sat.azimuth + (rA - 1) + 360) 360
  let elev2 := if elev1 < 5 then 5 else elev1
  let elev3 := if elev2 > 85 then 85 else elev2
  let snr1 := sat.snr + (rS - 3)
  let snr2 := if snr1 < 15 then 15 else snr1
  let snr3 := if snr2 > 55 then 55 else snr2
  { sat with elevation := elev3, azimuth := az1, snr := snr3 }

/-- Iterate `updateSatellite` over a list of random-step triples. -/
def updateSatelliteSteps (sat : Satellite) : List (Int × Int × Int) → Satellite
  | [] => sat
  | (rE, rA, rS) :: rest => updateSatelliteSteps (updateSatellite sat rE rA rS) rest

/-! ## Replay engine (`updateReplayPosition`, `hasSequentialTimestamps`)

`time.Time` / `time.Duration` are integer nanosecond counts.  The Go
float64 `ReplaySpeed` only ever meets multiplications, divisions and
order comparisons here, and is modelled as `Rat`; Go's float64→int64
conversion truncates toward zero (`ratTrunc`).  Go integer `/` and `%`
truncate toward zero (`Int.tdiv` / `Int.tmod`).

The final speed/course derivation of `updateReplayPosition` (great-circle
distance and bearing to the following point) is transcendental; it touches
neither the cursor, the completion flag, the config, nor the position
fields and is not the subject of any claim, so the cursor model omits it
(the corresponding geometry lives in the real-number layer below). -/

/-- `TrackPoint` from `types.go` (timestamp in nanoseconds). -/
structure TrackPoint where
  lat : Rat
  lon : Rat
  elevation : Rat
  time : Int
  deriving DecidableEq, Repr

/-- The replay-relevant configuration fields. -/
structure ReplayConfig where
  replaySpeed : Rat
  replayLoop : Bool
  deriving DecidableEq, Repr

/-- The replay-relevant simulator state. -/
structure ReplayState where
  cfg : ReplayConfig
  points : List TrackPoint
  replayIndex : Int
  replayStartTime : Int
  replayCompleted : Bool
  lat : Rat
  lon : Rat
  alt : Rat
  deriving DecidableEq, Repr

/-- Go float64→int64 conversion: truncation toward zero. -/
def ratTrunc (q : Rat) : Int :=
  Int.tdiv q.num q.den

/-- The defensive replay-speed correction: non-positive speeds become `1.0`. -/
def coerceReplaySpeed (q : Rat) : Rat :=
  if q ≤ 0 then 1 else q

/-- The scan of `hasSequentialTimestamps`: `true` iff no adjacent pair
decreases (`points[i+1].Time.Before(points[i].Time)` never holds). -/
def chainLE : List TrackPoint → Bool
  | [] => true
  | [_] => true
  | p :: q :: rest => (decide (p.time ≤ q.time)) && chainLE (q :: rest)

/-- `hasSequentialTimestamps` from `gps/simulator.go`: `false` for fewer
than two points, else the adjacent-pair scan. -/
def hasSequentialTimestamps (pts : List TrackPoint) : Bool :=
  if pts.length < 2 then false else chainLE pts

/-- Timestamp of `points[0]` (callers guard non-emptiness). -/
def firstTime (pts : List TrackPoint) : Int :=
  match pts with
  | [] => 0
  | p :: _ => p.time

/-- Timestamp of `points[len(points)-1]` (callers guard non-emptiness). -/
def lastTime (pts : List TrackPoint) : Int :=
  match pts.getLast? with
  | none => 0
  | some p => p.time

/-- The time-based index scan of `updateReplayPosition`: walk the points,
remember the last index whose timestamp is `≤ target`, stop at the first
later one (`newIndex = i` then `break`). -/
def scanTargetIdx : List TrackPoint → Int → Nat → Nat → Nat
  | [], _, _, acc => acc
  | p :: rest, target, i, acc =>
      if p.time ≤ target then scanTargetIdx rest target (i + 1) i else acc

/-- The target time of a time-based replay tick:
`points[0].Time.Add(time.Duration(float64(elapsed) * ReplaySpeed))`
with the defensively coerced speed. -/
def replayTargetTime (st : ReplayState) (now : Int) : Int :=
  firstTime st.points +
    ratTrunc (((now - st.replayStartTime : Int) : Rat) * coerceReplaySpeed st.cfg.replaySpeed)

/-- `pointInterval := time.Duration(float64(time.Second) / ReplaySpeed)`. -/
def pointIntervalNs (speed : Rat) : Int :=
  ratTrunc (1000000000 / speed)

/-- `updateReplayPosition` from `gps/simulator.go`: early return on an
empty track; defensive speed coercion (persisted into the config);
time-based progression when timestamps are sequential, index-based
otherwise; completion/looping at `newIndex ≥ len(points)`; else the
position is copied from the point at the cursor.  (Go would panic on a
negative `newIndex` — possible only with a backwards wall clock — and on
a zero `pointInterval`; the model totalizes these with `Int.toNat`/`getD`
and `tdiv _ 0 = 0`, and the theorems below hypothesize a monotone clock
and a replay speed of at most `1e9` so those cases are never claimed.) -/
def updateReplayPosition (st : ReplayState) (now : Int) : ReplayState :=
  if st.points.length = 0 then st
  else
    let cfg1 := if st.cfg.replaySpeed ≤ 0 then { st.cfg with replaySpeed := (1 : Rat) }
      else st.cfg
    let elapsed := now - st.replayStartTime
    let newIndex : Int :=
      if hasSequentialTimestamps st.points then
        let adjusted := ratTrunc ((elapsed : Rat) * cfg1.replaySpeed)
        let target := firstTime st.points + adjusted
        if target > lastTime st.points then (st.points.length : Int)
        else (scanTargetIdx st.points target 0 0 : Int)
      else
        let pointsSinceStart := Int.tdiv elapsed (pointIntervalNs cfg1.replaySpeed)
        if cfg1.replayLoop then Int.tmod pointsSinceStart (st.points.length : Int)
        else pointsSinceStart
    if newIndex ≥ (st.points.length : Int) then
      if cfg1.replayLoop then
        { st with
            cfg := cfg1
            replayIndex := 0
            replayStartTime := now
            replayCompleted := true }
      else
        { st with cfg := cfg1, replayIndex := newIndex, replayCompleted := true }
    else
      let p := st.points.getD newIndex.toNat ⟨0, 0, 0, 0⟩
      { st with
          cfg := cfg1
          replayIndex := newIndex
          lat := p.lat
          lon := p.lon
          alt := p.elevation }

/-- A loaded single-point track (vacuously non-decreasing timestamps),
half a second into replay at speed 1: input for the C3 counterexample. -/
def c3State : ReplayState :=
  { cfg := { replaySpeed := 1, replayLoop := false },
    points := [{ lat := 37, lon := -122, elevation := 10, time := 0 }],
    replayIndex := 0, replayStartTime := 0, replayCompleted := false,
    lat := 37, lon := -122, alt := 10 }

/-- The same single-point track three seconds into replay at speed 1:
input for the C4 counterexample. -/
def c4State : ReplayState :=
  { cfg := { replaySpeed := 1, replayLoop := false },
    points := [{ lat := 37, lon := -122, elevation := 10, time := 0 }],
    replayIndex := 0, replayStartTime := 0, replayCompleted := false,
    lat := 37, lon := -122, alt := 10 }

/-- A replay state whose stored replay speed has become zero:
input for the C9 witness. -/
def c9State : ReplayState :=
  { cfg := { replaySpeed := 0, replayLoop := false },
    points := [{ lat := 37, lon := -122, elevation := 10, time := 0 }],
    replayIndex := 0, replayStartTime := 0, replayCompleted := false,
    lat := 37, lon := -122, alt := 10 }

/-- The config after the defensive speed correction. -/
def coerceCfg (c : ReplayConfig) : ReplayConfig :=
  { c with replaySpeed := coerceReplaySpeed c.replaySpeed }

/-- The cursor value a replay tick computes before the completion check
(`newIndex` in `updateReplayPosition`), written with the coerced speed. -/
def replayNewIndex (st : ReplayState) (now : Int) : Int :=
  let speed := coerceReplaySpeed st.cfg.replaySpeed
  if hasSequentialTimestamps st.points then
    let target := firstTime st.points +
      ratTrunc (((now - st.replayStartTime : Int) : Rat) * speed)
    if target > lastTime st.points then (st.points.length : Int)
    else (scanTargetIdx st.points target 0 0 : Int)
  else
    let pointsSinceStart := Int.tdiv (now - st.replayStartTime)
      (pointIntervalNs speed)
    if st.cfg.replayLoop then Int.tmod pointsSinceStart (st.points.length : Int)
    else pointsSinceStart

/-- A two-point track half a second into replay at speed 1:
input for the C3 witness. -/
def c3WitState : ReplayState :=
  { cfg := { replaySpeed := 1, replayLoop := false },
    points := [{ lat := 37, lon := -122, elevation := 10, time := 0 },
      { lat := 38, lon := -121, elevation := 12, time := 1000000000 }],
    replayIndex := 0, replayStartTime := 0, replayCompleted := false,
    lat := 37, lon := -122, alt := 10 }

/-- A two-point track two seconds into replay at speed 1:
input for the C4 witness. -/
def c4WitState : ReplayState :=
  { cfg := { replaySpeed := 1, replayLoop := false },
    points := [{ lat := 37, lon := -122, elevation := 10, time := 0 },
      { lat := 38, lon := -121, elevation := 12, time := 1000000000 }],
    replayIndex := 0, replayStartTime := 0, replayCompleted := false,
    lat := 37, lon := -122, alt := 10 }

/-! ## Config, `Config.Validate` and `UpdateConfig` (`gps/simulator.go`)

The `Simulator` struct's pure state.  IO resources (`nmeaWriter`,
`gpxWriter`, `ctx`, `cancel`, callbacks) and the mutex are not state in
the claims' sense; the `*time.Ticker` is modelled by its period
(`tickerRate`), which is what `UpdateConfig` changes when it restarts the
ticker. -/

/-- `Config` from `gps/simulator.go` (durations in nanoseconds). -/
structure Config where
  latitude : Rat
  longitude : Rat
  radius : Rat
  altitude : Rat
  jitter : Rat
  altitudeJitter : Rat
  speed : Rat
  course : Rat
  satellites : Int
  timeToLock : Int
  outputRate : Int
  serialPort : String
  baudRate : Int
  quiet : Bool
  gpxEnabled : Bool
  gpxFile : String
  duration : Int
  replayFile : String
  replaySpeed : Rat
  replayLoop : Bool
  deriving DecidableEq, Repr

/-- The validation errors of `errors.go`. -/
inductive GpsError where
  | invalidSatelliteCount
  | invalidRadius
  | invalidJitter
  | invalidAltitudeJitter
  | invalidBaudRate
  | invalidSpeed
  | invalidCourse
  | invalidReplaySpeed
  deriving DecidableEq, Repr

/-- `Config.Validate`: the checks in source order, first failure wins. -/
def Config.Validate (c : Config) : Option GpsError :=
  if c.satellites < 4 ∨ c.satellites > 12 then some .invalidSatelliteCount
  else if c.radius < 0 then some .invalidRadius
  else if c.jitter < 0 ∨ c.jitter > 1 then some .invalidJitter
  else if c.altitudeJitter < 0 ∨ c.altitudeJitter > 1 then some .invalidAltitudeJitter
  else if c.baudRate ≤ 0 then some .invalidBaudRate
  else if c.speed < 0 then some .invalidSpeed
  else if c.course < 0 ∨ c.course ≥ 360 then some .invalidCourse
  else if c.replaySpeed ≤ 0 then some .invalidReplaySpeed
  else none

/-- The pure state of the `Simulator` struct. -/
structure Simulator where
  config : Config
  currentLat : Rat
  currentLon : Rat
  currentAlt : Rat
  currentSpeed : Rat
  currentCourse : Rat
  isLocked : Bool
  lockTime : Int
  startTime : Int
  lastUpdateTime : Int
  satellites : List Satellite
  replayPoints : List TrackPoint
  replayIndex : Int
  replayStartTime : Int
  replayCompleted : Bool
  running : Bool
  tickerRate : Int
  deriving DecidableEq, Repr

/-- `UpdateConfig` from `gps/simulator.go`: validate, and on failure
return the error leaving the receiver untouched; on success replace the
stored config and, when running with a changed output rate, restart the
ticker at the new rate. -/
def UpdateConfig (s : Simulator) (newConfig : Config) : Simulator × Option GpsError :=
  match newConfig.Validate with
  | some e => (s, some e)
  | none =>
      let oldRate := s.config.outputRate
      let s1 := { s with config := newConfig }
      if s1.running = true ∧ oldRate ≠ newConfig.outputRate then
        ({ s1 with tickerRate := newConfig.outputRate }, none)
      else (s1, none)

/-- `DefaultConfig` from `gps/simulator.go` (a valid configuration). -/
def defaultConfig : Config :=
  { latitude := 37.7749, longitude := -122.4194, radius := 100, altitude := 45,
    jitter := 0, altitudeJitter := 0, speed := 0, course := 0, satellites := 8,
    timeToLock := 2000000000, outputRate := 1000000000, serialPort := "",
    baudRate := 9600, quiet := false, gpxEnabled := false, gpxFile := "",
    duration := 0, replayFile := "", replaySpeed := 1, replayLoop := false }

/-- A config rejected by `Config.Validate` (three satellites). -/
def badConfig : Config :=
  { defaultConfig with satellites := 3 }

/-- A concrete simulator state for the C10 witness. -/
def simExample : Simulator :=
  { config := { defaultConfig with outputRate := 500000000 },
    currentLat := 37.7749, currentLon := -122.4194, currentAlt := 45,
    currentSpeed := 0, currentCourse := 0, isLocked := true, lockTime := 0,
    startTime := 0, lastUpdateTime := 0, satellites := [⟨1, 45, 90, 40⟩],
    replayPoints := [], replayIndex := 0, replayStartTime := 0,
    replayCompleted := false, running := true, tickerRate := 500000000 }

/-! ## Motion model over `ℝ` (`gps/simulator.go`, legacy `part_004`)

The motion model's float64 arithmetic uses transcendental functions and is
modelled over the reals (idealized float64: no rounding).  `math.Atan2` is
modelled by its case split on finite inputs; real numbers have no signed
zero, so `atan2 0 0 = 0` (Go's `Atan2(+0, +0)`).  The Go `for` loops that
normalize angles by repeatedly adding/subtracting 360 are the `wrap…`
functions, recursion on the number of missing wraps. -/

open Classical in
/-- Go `math.Atan2` on finite inputs. -/
noncomputable def atan2 (y x : ℝ) : ℝ :=
  if 0 < x then Real.arctan (y / x)
  else if x < 0 then
    (if 0 ≤ y then Real.arctan (y / x) + Real.pi else Real.arctan (y / x) - Real.pi)
  else
    (if 0 < y then Real.pi / 2 else if y < 0 then -(Real.pi / 2) else 0)

open Classical in
/-- `for course < 0 { course += 360 }`. -/
noncomputable def wrapAdd360 (c : ℝ) : ℝ :=
  if c < 0 then wrapAdd360 (c + 360) else c
termination_by (⌈-c / 360⌉).toNat
decreasing_by
  rename_i h
  have h1 : -(c + 360) / 360 = -c / 360 - 1 := by ring
  have h2 : (0 : ℤ) < ⌈-c / 360⌉ :=
    Int.ceil_pos.mpr (div_pos (by linarith) (by norm_num))
  have h3 : (⌈-(c + 360) / 360⌉) = ⌈-c / 360⌉ - 1 := by
    rw [h1, Int.ceil_sub_one]
  omega

open Classical in
/-- `for course >= 360 { course -= 360 }`. -/
noncomputable def wrapSub360 (c : ℝ) : ℝ :=
  if 360 ≤ c then wrapSub360 (c - 360) else c
termination_by (⌊c / 360⌋).toNat
decreasing_by
  rename_i h
  have h1 : (c - 360) / 360 = c / 360 - 1 := by ring
  have h2 : (1 : ℤ) ≤ ⌊c / 360⌋ := by
    apply Int.le_floor.mpr
    rw [Int.cast_one, le_div_iff (by norm_num : (0:ℝ) < 360)]
    linarith
  have h3 : (⌊(c - 360) / 360⌋) = ⌊c / 360⌋ - 1 := by
    rw [h1, Int.floor_sub_one]
  omega

/-- The course normalization of `updateSpeedAndCourse` / `updatePosition`:
both wrap loops in sequence. -/
noncomputable def normalizeCourse (c : ℝ) : ℝ :=
  wrapSub360 (wrapAdd360 c)

open Classical in
/-- `for newLon > 180 { newLon -= 360 }`. -/
noncomputable def wrapLonHigh (c : ℝ) : ℝ :=
  if 180 < c then wrapLonHigh (c - 360) else c
termination_by (⌈(c - 180) / 360⌉).toNat
decreasing_by
  rename_i h
  have h1 : (c - 360 - 180) / 360 = (c - 180) / 360 - 1 := by ring
  have h2 : (0 : ℤ) < ⌈(c - 180) / 360⌉ :=
    Int.ceil_pos.mpr (div_pos (by linarith) (by norm_num))
  have h3 : (⌈(c - 360 - 180) / 360⌉) = ⌈(c - 180) / 360⌉ - 1 := by
    rw [h1, Int.ceil_sub_one]
  omega

open Classical in
/-- `for newLon < -180 { newLon += 360 }`. -/
noncomputable def wrapLonLow (c : ℝ) : ℝ :=
  if c < -180 then wrapLonLow (c + 360) else c
termination_by (⌈(-180 - c) / 360⌉).toNat
decreasing_by
  rename_i h
  have h1 : (-180 - (c + 360)) / 360 = (-180 - c) / 360 - 1 := by ring
  have h2 : (0 : ℤ) < ⌈(-180 - c) / 360⌉ :=
    Int.ceil_pos.mpr (div_pos (by linarith) (by norm_num))
  have h3 : (⌈(-180 - (c + 360)) / 360⌉) = ⌈(-180 - c) / 360⌉ - 1 := by
    rw [h1, Int.ceil_sub_one]
  omega

/-- The longitude normalization at the end of `calculateNewPosition`. -/
noncomputable def normalizeLon (c : ℝ) : ℝ :=
  wrapLonLow (wrapLonHigh c)

/-- `calculateDistance` (Haversine) from `gps/simulator.go`. -/
noncomputable def calculateDistance (lat1 lon1 lat2 lon2 : ℝ) : ℝ :=
  let lat1Rad := lat1 * Real.pi / 180
  let lat2Rad := lat2 * Real.pi / 180
  let deltaLat := (lat2 - lat1) * Real.pi / 180
  let deltaLon := (lon2 - lon1) * Real.pi / 180
  let a := Real.sin (deltaLat / 2) * Real.sin (deltaLat / 2) +
    Real.cos lat1Rad * Real.cos lat2Rad *
      (Real.sin (deltaLon / 2) * Real.sin (deltaLon / 2))
  let c := 2 * atan2 (Real.sqrt a) (Real.sqrt (1 - a))
  6371000 * c

/-- `calculateNewPosition` (spherical destination) from `gps/simulator.go`. -/
noncomputable def calculateNewPosition (lat lon distance bearing : ℝ) : ℝ × ℝ :=
  let latRad := lat * Real.pi / 180
  let lonRad := lon * Real.pi / 180
  let bearingRad := bearing * Real.pi / 180
  let angularDistance := distance / 6371000
  let newLatRad := Real.arcsin (Real.sin latRad * Real.cos angularDistance +
    Real.cos latRad * Real.sin angularDistance * Real.cos bearingRad)
  let newLonRad := lonRad + atan2
    (Real.sin bearingRad * Real.sin angularDistance * Real.cos latRad)
    (Real.cos angularDistance - Real.sin latRad * Real.sin newLatRad)
  (newLatRad * 180 / Real.pi, normalizeLon (newLonRad * 180 / Real.pi))

open Classical in
/-- `calculateBearing` from `gps/simulator.go`. -/
noncomputable def calculateBearing (lat1 lon1 lat2 lon2 : ℝ) : ℝ :=
  let lat1Rad := lat1 * Real.pi / 180
  let lat2Rad := lat2 * Real.pi / 180
  let deltaLonRad := (lon2 - lon1) * Real.pi / 180
  let y := Real.sin deltaLonRad * Real.cos lat2Rad
  let x := Real.cos lat1Rad * Real.sin lat2Rad -
    Real.sin lat1Rad * Real.cos lat2Rad * Real.cos deltaLonRad
  let bearing := atan2 y x * 180 / Real.pi
  if bearing < 0 then bearing + 360 else bearing

/-- The motion-relevant configuration fields, over `ℝ`. -/
structure MotionConfig where
  latitude : ℝ
  longitude : ℝ
  radius : ℝ
  jitter : ℝ
  speed : ℝ
  course : ℝ
  altitude : ℝ
  altitudeJitter : ℝ

/-- The motion-relevant simulator state, over `ℝ`. -/
structure MotionState where
  lat : ℝ
  lon : ℝ
  alt : ℝ
  speed : ℝ
  course : ℝ

/-- `distanceFromCenter` from `gps/simulator.go`. -/
noncomputable def distanceFromCenter (cfg : MotionConfig) (lat lon : ℝ) : ℝ :=
  calculateDistance cfg.latitude cfg.longitude lat lon

open Classical in
/-- `updateSpeedAndCourse` from `gps/simulator.go`; `r1`, `r2` are the two
`rand.Float64()` draws. -/
noncomputable def updateSpeedAndCourse (cfg : MotionConfig) (st : MotionState)
    (r1 r2 : ℝ) : MotionState :=
  let speedVariation : ℝ :=
    if cfg.jitter = 0 then 0
    else if cfg.jitter < 0.2 then 0.05
    else if cfg.jitter < 0.7 then 0.10 + (cfg.jitter - 0.2) * 0.40
    else 0.30 + (cfg.jitter - 0.7) * 0.67
  let courseVariation : ℝ :=
    if cfg.jitter = 0 then 0
    else if cfg.jitter < 0.2 then 2
    else if cfg.jitter < 0.7 then 5 + (cfg.jitter - 0.2) * 20
    else 15 + (cfg.jitter - 0.7) * 50
  let speedDelta := (r1 - 0.5) * 2 * cfg.speed * speedVariation
  let speed1 := cfg.speed + speedDelta
  let speed2 := if speed1 < 0 then 0 else speed1
  let courseDelta := (r2 - 0.5) * 2 * courseVariation
  { st with
      speed := speed2
      course := normalizeCourse (cfg.course + courseDelta) }

/-- The unconstrained candidate position of `updatePosition`
(`gps/simulator.go`): project `speed·0.514444·Δt` meters along the current
course from the current position. -/
noncomputable def gpsCandidate (st : MotionState) (dt : ℝ) : ℝ × ℝ :=
  calculateNewPosition st.lat st.lon (st.speed * 0.514444 * dt) st.course

open Classical in
/-- `updatePosition` from `gps/simulator.go`: no-op on `Δt ≤ 0`; otherwise
commit the candidate, except that when its distance from the configured
center exceeds `Config.Radius` (checked even when the radius is zero) the
position is either recomputed with a randomly bounced course
(`Jitter > 0.5`, `rB` the draw) or clamped onto the radius circle. -/
noncomputable def updatePosition (cfg : MotionConfig) (st : MotionState)
    (dt rB : ℝ) : MotionState :=
  if dt ≤ 0 then st
  else
    let cand := gpsCandidate st dt
    if distanceFromCenter cfg cand.1 cand.2 > cfg.radius then
      if cfg.jitter > 0.5 then
        let course2 := normalizeCourse (st.course + (rB - 0.5) * 60)
        let cand2 := calculateNewPosition st.lat st.lon
          (st.speed * 0.514444 * dt) course2
        { st with lat := cand2.1, lon := cand2.2, course := course2 }
      else
        let bearing := calculateBearing cfg.latitude cfg.longitude cand.1 cand.2
        let cand2 := calculateNewPosition cfg.latitude cfg.longitude
          cfg.radius bearing
        { st with lat := cand2.1, lon := cand2.2 }
    else
      { st with lat := cand.1, lon := cand.2 }

open Classical in
/-- `updateAltitude` from `gps/simulator.go`; `r3` is the draw. -/
noncomputable def updateAltitude (cfg : MotionConfig) (st : MotionState)
    (r3 : ℝ) : MotionState :=
  if cfg.altitudeJitter > 0 then
    let maxChange := 1 + cfg.altitudeJitter * 20
    let change := (r3 - 0.5) * 2 * maxChange
    let newAltitude := st.alt + change
    let minAltitude0 := cfg.altitude - 100
    let maxAltitude := cfg.altitude + 500
    let minAltitude := if minAltitude0 < -50 then (-50 : ℝ) else minAltitude0
    { st with alt :=
        if newAltitude < minAltitude then minAltitude
        else if newAltitude > maxAltitude then maxAltitude
        else newAltitude }
  else st

/-- One procedural motion tick (`update` when not replaying):
`updateSpeedAndCourse`, `updatePosition`, `updateAltitude`. -/
noncomputable def motionTick (cfg : MotionConfig) (st : MotionState)
    (r1 r2 rB r3 dt : ℝ) : MotionState :=
  updateAltitude cfg (updatePosition cfg (updateSpeedAndCourse cfg st r1 r2) dt rB) r3

/-- `n` motion ticks with per-tick random draws and tick deltas. -/
noncomputable def motionTicks (cfg : MotionConfig) (st : MotionState)
    (r1 r2 rB r3 dt : ℕ → ℝ) : ℕ → MotionState
  | 0 => st
  | n + 1 => motionTick cfg (motionTicks cfg st r1 r2 rB r3 dt n)
      (r1 n) (r2 n) (rB n) (r3 n) (dt n)

open Classical in
/-- The unconstrained candidate of the legacy flat-earth `updatePosition`
(`part_004`): course-projected displacement plus, when `Jitter > 0`, the
stationary GPS-noise offset (`jA`, `jD` the draws), converted
meters→degrees equirectangularly. -/
noncomputable def legacyCandidate (cfg : MotionConfig) (st : MotionState)
    (dt jA jD : ℝ) : ℝ × ℝ :=
  let distanceMeters := st.speed * 0.514444 * dt
  let mathAngleRad := (90 - st.course) * Real.pi / 180
  let deltaEast0 := distanceMeters * Real.cos mathAngleRad
  let deltaNorth0 := distanceMeters * Real.sin mathAngleRad
  let maxJitterDistance : ℝ :=
    if cfg.radius > 0 then cfg.radius * cfg.jitter * 0.5 else 10 * cfg.jitter
  let jitterAngle := jA * (2 * Real.pi)
  let jitterDistance := jD * maxJitterDistance
  let deltaEast := if cfg.jitter > 0 then
    deltaEast0 + jitterDistance * Real.cos jitterAngle else deltaEast0
  let deltaNorth := if cfg.jitter > 0 then
    deltaNorth0 + jitterDistance * Real.sin jitterAngle else deltaNorth0
  (st.lat + deltaNorth / 111320,
    st.lon + deltaEast / (111320 * Real.cos (st.lat * Real.pi / 180)))

open Classical in
/-- The legacy flat-earth `updatePosition` of `part_004`: the radius
constraint is guarded by `Config.Radius > 0`; inside it the position is
placed on the (equirectangular) radius circle and, when `Jitter > 0.3`,
the course additionally receives a random ±45° bounce (`rB` the draw). -/
noncomputable def legacyUpdatePosition (cfg : MotionConfig) (st : MotionState)
    (dt jA jD rB : ℝ) : MotionState :=
  if dt ≤ 0 then st
  else
    let cand := legacyCandidate cfg st dt jA jD
    if cfg.radius > 0 then
      if distanceFromCenter cfg cand.1 cand.2 > cfg.radius then
        let bearing := atan2
          ((cand.2 - cfg.longitude) * Real.cos (cfg.latitude * Real.pi / 180))
          (cand.1 - cfg.latitude)
        let radiusDegLat := cfg.radius / 111320
        let radiusDegLon := cfg.radius /
          (111320 * Real.cos (cfg.latitude * Real.pi / 180))
        let newLat2 := cfg.latitude + radiusDegLat * Real.cos bearing
        let newLon2 := cfg.longitude + radiusDegLon * Real.sin bearing /
          Real.cos (cfg.latitude * Real.pi / 180)
        if cfg.jitter > 0.3 then
          { st with
              lat := newLat2
              lon := newLon2
              course := normalizeCourse (st.course + (rB - 0.5) * 90) }
        else
          { st with lat := newLat2, lon := newLon2 }
      else
        { st with lat := cand.1, lon := cand.2 }
    else
      { st with lat := cand.1, lon := cand.2 }

/-- The speed reaching a quarter turn of the Earth in one second:
`0.514444 · speed · 1 s = 6371000 · π/2 m`. -/
noncomputable def c2Speed : ℝ :=
  6371000 * (Real.pi / 2) / 0.514444

/-- Zero-radius config at the origin with low jitter, for the C2
counterexample. -/
noncomputable def c2Cfg : MotionConfig :=
  { latitude := 0, longitude := 0, radius := 0, jitter := 0.1,
    speed := c2Speed, course := 0, altitude := 0, altitudeJitter := 0 }

/-- State at the origin moving due north at `c2Speed`. -/
noncomputable def c2St : MotionState :=
  { lat := 0, lon := 0, alt := 0, speed := c2Speed, course := 0 }

/-- Positive-radius high-jitter config at the origin, for the C2
counterexample's overshoot half. -/
noncomputable def c2bCfg : MotionConfig :=
  { latitude := 0, longitude := 0, radius := 1, jitter := 0.7,
    speed := c2Speed, course := 0, altitude := 0, altitudeJitter := 0 }

/-- A zero-radius legacy config, for the C2 witness. -/
noncomputable def c2LegacyCfg : MotionConfig :=
  { latitude := 0, longitude := 0, radius := 0, jitter := 0,
    speed := 1, course := 0, altitude := 0, altitudeJitter := 0 }

/-- A half-jitter config, for the C5 witness. -/
noncomputable def c5Cfg : MotionConfig :=
  { latitude := 37.7749, longitude := -122.4194, radius := 100, jitter := 0.5,
    speed := 5, course := 45, altitude := 45, altitudeJitter := 0.1 }

/-- A state matching `c5Cfg`, for the C5 witness. -/
noncomputable def c5St : MotionState :=
  { lat := 37.7749, lon := -122.4194, alt := 45, speed := 5, course := 45 }

/-- The C8 config: origin `(37.7749, -122.4194)`, radius 100, speed 0,
course 0, jitter 0. -/
noncomputable def c8Cfg : MotionConfig :=
  { latitude := 37.7749, longitude := -122.4194, radius := 100, jitter := 0,
    speed := 0, course := 0, altitude := 45, altitudeJitter := 0 }

/-- The initial state for `c8Cfg` (as `NewSimulator` sets it). -/
noncomputable def c8St : MotionState :=
  { lat := 37.7749, lon := -122.4194, alt := 45, speed := 0, course := 0 }

-- ===== additional definitions are inserted above this line =====

/-! ## Theorems -/

theorem hexVal_hexDigit {n : Nat} (h : n < 16) : hexVal (hexDigit n) = n := by
  interval_cases n <;> decide

theorem hexDigit_mem_upperHex {n : Nat} (h : n < 16) : hexDigit n ∈ upperHexDigits := by
  interval_cases n <;> decide

/-- XOR-folding bytes below a power-of-two bound stays below the bound. -/
theorem foldl_xor_bound {k : Nat} :
    ∀ (l : List Nat), (∀ b ∈ l, b < 2 ^ k) → ∀ a, a < 2 ^ k →
      l.foldl (fun a b => a ^^^ b) a < 2 ^ k := by
  intro l
  induction l with
  | nil => intro _ a ha; simpa using ha
  | cons b t ih =>
      intro hb a ha
      simp only [List.foldl_cons]
      exact ih (fun x hx => hb x (List.mem_cons_of_mem _ hx)) _
        (Nat.xor_lt_two_pow ha (hb b (List.mem_cons_self _ _)))

theorem nmeaXor_lt (s : String) (hascii : ∀ c ∈ s.data, c.toNat < 128) :
    nmeaXor s < 256 := by
  have h : nmeaXor s < 2 ^ 8 := by
    apply foldl_xor_bound
    · intro b hb
      simp only [sentenceBytes] at hb
      rcases List.mem_map.mp (List.mem_of_mem_drop hb) with ⟨c, hc, rfl⟩
      exact lt_trans (hascii c hc) (by norm_num)
    · norm_num
  simpa using h

/-- C1: for an NMEA body `s` starting with `$` and containing no `*`,
`calculateChecksum s` is exactly two uppercase hexadecimal digits whose
value is the XOR of every byte of `s` after the leading `$` (`nmeaXor s`),
and `formatNMEA s` is `s` followed by `*`, that checksum, and CRLF. -/
theorem C1_checksum_and_framing (s : String)
    (hd : s.data.head? = some '$')
    (hstar : '*' ∉ s.data)
    (hascii : ∀ c ∈ s.data, c.toNat < 128) :
    (∃ d1 d2, calculateChecksum s = String.mk [d1, d2] ∧
      d1 ∈ upperHexDigits ∧ d2 ∈ upperHexDigits ∧
      16 * hexVal d1 + hexVal d2 = nmeaXor s) ∧
    (calculateChecksum s).length = 2 ∧
    formatNMEA s = s ++ "*" ++ calculateChecksum s ++ "\r\n" := by
  have hb : nmeaXor s < 256 := nmeaXor_lt s hascii
  have hdiv : nmeaXor s / 16 < 16 := Nat.div_lt_of_lt_mul (by omega)
  have hmod : nmeaXor s % 16 < 16 := Nat.mod_lt _ (by norm_num)
  refine ⟨⟨hexDigit (nmeaXor s / 16), hexDigit (nmeaXor s % 16), rfl,
      hexDigit_mem_upperHex hdiv, hexDigit_mem_upperHex hmod, ?_⟩, ?_, rfl⟩
  · rw [hexVal_hexDigit hdiv, hexVal_hexDigit hmod]
    exact Nat.div_add_mod (nmeaXor s) 16
  · simp [calculateChecksum, hex2, String.length]

/-- Witness for C1 at the concrete body `"$GPGGA,1"`. -/
theorem C1_checksum_and_framing_witness :
    ("$GPGGA,1".data.head? = some '$') ∧ ('*' ∉ "$GPGGA,1".data) ∧
    ((∃ d1 d2, calculateChecksum "$GPGGA,1" = String.mk [d1, d2] ∧
        d1 ∈ upperHexDigits ∧ d2 ∈ upperHexDigits ∧
        16 * hexVal d1 + hexVal d2 = nmeaXor "$GPGGA,1") ∧
      (calculateChecksum "$GPGGA,1").length = 2 ∧
      formatNMEA "$GPGGA,1" = "$GPGGA,1" ++ "*" ++ calculateChecksum "$GPGGA,1" ++ "\r\n") :=
  ⟨by decide, by decide,
    C1_checksum_and_framing "$GPGGA,1" (by decide) (by decide) (by decide)⟩

theorem digitChar_mem (d : Nat) :
    digitChar d ∈ ['0', '1', '2', '3', '4', '5', '6', '7', '8', '9'] := by
  by_cases h : d < 10
  · interval_cases d <;> decide
  · rw [digitChar, List.getD_eq_default]
    · decide
    · simpa using Nat.le_of_not_lt h

theorem comma_not_mem_natChars (n : Nat) : ',' ∉ natChars n := by
  induction n using Nat.strong_induction_on with
  | _ n ih =>
      rw [natChars]
      split
      · intro hmem
        have := digitChar_mem n
        simp only [List.mem_singleton] at hmem
        rw [← hmem] at this
        simp at this
      · intro hmem
        rcases List.mem_append.mp hmem with h1 | h1
        · exact ih (n / 10) (Nat.div_lt_self (by omega) (by norm_num)) h1
        · have := digitChar_mem (n % 10)
          simp only [List.mem_singleton] at h1
          rw [← h1] at this
          simp at this

theorem commaCount_append (a b : String) :
    commaCount (a ++ b) = commaCount a + commaCount b := by
  simp [commaCount, String.data_append, List.count_append]

theorem commaCount_natStr (n : Nat) : commaCount (natStr n) = 0 := by
  simp only [commaCount, natStr]
  exact List.count_eq_zero.mpr (comma_not_mem_natChars n)

theorem commaCount_padZeros (w : Nat) (s : String) (h : commaCount s = 0) :
    commaCount (padZeros w s) = 0 := by
  simp only [padZeros]
  have : commaCount (String.mk (List.replicate (w - s.length) '0')) = 0 := by
    simp only [commaCount]
    exact List.count_eq_zero.mpr (by simp)
  rw [commaCount_append, this, h]

theorem commaCount_goPadNat (w n : Nat) : commaCount (goPadNat w n) = 0 :=
  commaCount_padZeros _ _ (commaCount_natStr n)

theorem commaCount_goPadInt (w : Nat) (i : Int) : commaCount (goPadInt w i) = 0 := by
  rw [goPadInt]
  split
  · rw [commaCount_append, commaCount_padZeros _ _ (commaCount_natStr _)]
    decide
  · exact commaCount_padZeros _ _ (commaCount_natStr _)

theorem commaCount_satFields (l : List Satellite) :
    commaCount (satFields l) = 4 * l.length := by
  induction l with
  | nil => decide
  | cons sat rest ih =>
      simp only [satFields, commaCount_append, commaCount_goPadInt, ih,
        List.length_cons]
      have h1 : commaCount "," = 1 := by decide
      rw [h1]
      ring

theorem commaCount_blanks (k : Nat) : commaCount (blanks k) = 4 * k := by
  induction k with
  | zero => decide
  | succ k ih =>
      simp only [blanks, commaCount_append, ih]
      have h1 : commaCount ",,,," = 4 := by decide
      rw [h1]
      ring

/-- C7: for `4 ≤ n ≤ 12` satellites, `generateGSV` returns exactly
`⌈n/4⌉ = (n+3)/4` sentences; sentence `j` (0-based) is a checksummed body
that declares `(n+3)/4` as total-sentences, `j+1` as sentence number and
`n` (two digits) as total-satellites, always carries exactly 4 satellite
slots (19 commas = 20 fields), and when `n % 4 ≠ 0` the last sentence ends
with `4 - n % 4` blank `",,,,"` slots. -/
theorem C7_generateGSV (sats : List Satellite) (h4 : 4 ≤ sats.length)
    (h12 : sats.length ≤ 12) :
    (generateGSV sats).length = (sats.length + 3) / 4 ∧
    (∀ j, j < (sats.length + 3) / 4 →
      ∃ body rest pre,
        (generateGSV sats)[j]? = some (formatNMEA body) ∧
        body = "$GPGSV," ++ natStr ((sats.length + 3) / 4) ++ "," ++ natStr (j + 1)
            ++ "," ++ goPadNat 2 sats.length ++ rest ∧
        commaCount body = 19 ∧
        (j + 1 = (sats.length + 3) / 4 → sats.length % 4 ≠ 0 →
          body = pre ++ blanks (4 - sats.length % 4))) := by
  constructor
  · simp [generateGSV]
  · intro j hj
    set slice := (sats.drop (j * 4)).take 4 with hslice
    have hlen : slice.length = min 4 (sats.length - j * 4) := by
      simp [hslice]
    refine ⟨"$GPGSV," ++ natStr ((sats.length + 3) / 4) ++ "," ++ natStr (j + 1)
        ++ "," ++ goPadNat 2 sats.length ++ satFields slice
        ++ blanks (4 - slice.length),
      satFields slice ++ blanks (4 - slice.length),
      "$GPGSV," ++ natStr ((sats.length + 3) / 4) ++ "," ++ natStr (j + 1)
        ++ "," ++ goPadNat 2 sats.length ++ satFields slice, ?_, ?_, ?_, ?_⟩
    · simp [generateGSV, gsvSentence, List.getElem?_map, List.getElem?_range, hj,
        hslice]
    · simp [String.append_assoc]
    · have hc1 : commaCount "$GPGSV," = 1 := by decide
      have hc2 : commaCount "," = 1 := by decide
      have hle : slice.length ≤ 4 := by omega
      simp only [commaCount_append, hc1, hc2, commaCount_natStr,
        commaCount_goPadNat, commaCount_satFields, commaCount_blanks]
      omega
    · intro hlast hmod
      have hq : slice.length = sats.length % 4 := by omega
      rw [hq]

/-- Witness for C7: twelve satellites give exactly `(12+3)/4 = 3` sentences,
each declaring `3` and `12`. -/
theorem C7_generateGSV_witness :
    4 ≤ gsvExampleSats.length ∧ gsvExampleSats.length ≤ 12 ∧
    ((generateGSV gsvExampleSats).length = (gsvExampleSats.length + 3) / 4 ∧
    (∀ j, j < (gsvExampleSats.length + 3) / 4 →
      ∃ body rest pre,
        (generateGSV gsvExampleSats)[j]? = some (formatNMEA body) ∧
        body = "$GPGSV," ++ natStr ((gsvExampleSats.length + 3) / 4) ++ ","
            ++ natStr (j + 1)
            ++ "," ++ goPadNat 2 gsvExampleSats.length ++ rest ∧
        commaCount body = 19 ∧
        (j + 1 = (gsvExampleSats.length + 3) / 4 → gsvExampleSats.length % 4 ≠ 0 →
          body = pre ++ blanks (4 - gsvExampleSats.length % 4)))) :=
  ⟨by decide, by decide, C7_generateGSV gsvExampleSats (by decide) (by decide)⟩

/-- One satellite step clamps elevation into `[5,85]` and SNR into
`[15,55]` regardless of the incoming values and of the draws. -/
theorem updateSatellite_elev_snr (sat : Satellite) (rE rA rS : Int) :
    5 ≤ (updateSatellite sat rE rA rS).elevation ∧
    (updateSatellite sat rE rA rS).elevation ≤ 85 ∧
    15 ≤ (updateSatellite sat rE rA rS).snr ∧
    (updateSatellite sat rE rA rS).snr ≤ 55 := by
  refine ⟨?_, ?_, ?_, ?_⟩ <;>
    · simp only [updateSatellite]
      split <;> split <;> omega

/-- One satellite step keeps the azimuth in `[0,360)` provided it starts
there and the draw is a legitimate `rand.Intn(3)` value. -/
theorem updateSatellite_azimuth (sat : Satellite) (rE rA rS : Int)
    (hA0 : 0 ≤ sat.azimuth) (hA1 : sat.azimuth < 360)
    (hrA0 : 0 ≤ rA) (_hrA1 : rA < 3) :
    0 ≤ (updateSatellite sat rE rA rS).azimuth ∧
    (updateSatellite sat rE rA rS).azimuth < 360 := by
  have harg : 0 ≤ sat.azimuth + (rA - 1) + 360 := by omega
  exact ⟨Int.tmod_nonneg _ harg, Int.tmod_lt_of_pos _ (by norm_num)⟩

/-- C6 (amended): after one or more satellite updates with legitimate
random draws, elevation is in `[5,85]` and SNR in `[15,55]` regardless of
the starting values — including out-of-range seeds with any azimuth,
because both fields are clamped after every step — and azimuth is in
`[0,360)` provided the starting azimuth is in `[0,360)` (as every azimuth
produced by `initializeSatellites` is). -/
theorem C6_satellite_ranges (sat : Satellite) (steps : List (Int × Int × Int))
    (hne : steps ≠ [])
    (hsteps : ∀ s ∈ steps, 0 ≤ s.1 ∧ s.1 < 3 ∧ 0 ≤ s.2.1 ∧ s.2.1 < 3 ∧
      0 ≤ s.2.2 ∧ s.2.2 < 6) :
    (5 ≤ (updateSatelliteSteps sat steps).elevation ∧
     (updateSatelliteSteps sat steps).elevation ≤ 85 ∧
     15 ≤ (updateSatelliteSteps sat steps).snr ∧
     (updateSatelliteSteps sat steps).snr ≤ 55) ∧
    (0 ≤ sat.azimuth → sat.azimuth < 360 →
      0 ≤ (updateSatelliteSteps sat steps).azimuth ∧
      (updateSatelliteSteps sat steps).azimuth < 360) := by
  induction steps generalizing sat with
  | nil => exact absurd rfl hne
  | cons s rest ih =>
      obtain ⟨rE, rA, rS⟩ := s
      have hs := hsteps _ (List.mem_cons_self _ _)
      simp only at hs
      rcases Decidable.em (rest = []) with hrest | hrest
      · subst hrest
        constructor
        · simpa [updateSatelliteSteps] using updateSatellite_elev_snr sat rE rA rS
        · intro hA0 hA1
          simpa [updateSatelliteSteps] using
            updateSatellite_azimuth sat rE rA rS hA0 hA1 hs.2.2.1 hs.2.2.2.1
      · have ihs := ih (updateSatellite sat rE rA rS) hrest
          (fun x hx => hsteps x (List.mem_cons_of_mem _ hx))
        constructor
        · simpa [updateSatelliteSteps] using ihs.1
        · intro hA0 hA1
          have haz := updateSatellite_azimuth sat rE rA rS hA0 hA1
            hs.2.2.1 hs.2.2.2.1
          simpa [updateSatelliteSteps] using ihs.2 haz.1 haz.2

/-- Counterexample to C6 as stated: with the out-of-range azimuth seed
`-721` and the legitimate draws `rE = 1, rA = 0, rS = 3`, one update leaves
the azimuth at `-2`, outside `[0,360)` (Go's `%` truncates toward zero, so
`(-721 - 1 + 360) % 360 = -2`). -/
theorem C6_counterexample :
    (0 ≤ (1 : Int) ∧ (1 : Int) < 3 ∧ 0 ≤ (0 : Int) ∧ (0 : Int) < 3 ∧
      0 ≤ (3 : Int) ∧ (3 : Int) < 6) ∧
    (updateSatellite ⟨1, 45, -721, 30⟩ 1 0 3).azimuth = -2 ∧
    ¬(0 ≤ (updateSatellite ⟨1, 45, -721, 30⟩ 1 0 3).azimuth ∧
      (updateSatellite ⟨1, 45, -721, 30⟩ 1 0 3).azimuth < 360) := by
  decide

/-- Witness for C6 at a satellite whose elevation (200) and SNR (99)
seeds are out of range, with a single legitimate draw: the elevation/SNR
bounds hold unconditionally, and the azimuth bound holds because the
azimuth seed (90) is in range. -/
theorem C6_satellite_ranges_witness :
    (5 ≤ (updateSatelliteSteps ⟨1, 200, 90, 99⟩ [(1, 1, 2)]).elevation ∧
     (updateSatelliteSteps ⟨1, 200, 90, 99⟩ [(1, 1, 2)]).elevation ≤ 85 ∧
     15 ≤ (updateSatelliteSteps ⟨1, 200, 90, 99⟩ [(1, 1, 2)]).snr ∧
     (updateSatelliteSteps ⟨1, 200, 90, 99⟩ [(1, 1, 2)]).snr ≤ 55) ∧
    (0 ≤ (updateSatelliteSteps ⟨1, 200, 90, 99⟩ [(1, 1, 2)]).azimuth ∧
     (updateSatelliteSteps ⟨1, 200, 90, 99⟩ [(1, 1, 2)]).azimuth < 360) :=
  ⟨(C6_satellite_ranges ⟨1, 200, 90, 99⟩ [(1, 1, 2)] (by decide) (by decide)).1,
    (C6_satellite_ranges ⟨1, 200, 90, 99⟩ [(1, 1, 2)] (by decide) (by decide)).2
      (by decide) (by decide)⟩

theorem chainLE_iff (pts : List TrackPoint) :
    chainLE pts = true ↔ List.Chain' (fun a b => a.time ≤ b.time) pts := by
  induction pts with
  | nil => simp [chainLE]
  | cons p rest ih =>
      cases rest with
      | nil => simp [chainLE]
      | cons q r =>
          rw [chainLE, Bool.and_eq_true, decide_eq_true_iff, List.chain'_cons, ih]

theorem hasSequentialTimestamps_true {pts : List TrackPoint} (h2 : 2 ≤ pts.length)
    (hc : List.Chain' (fun a b => a.time ≤ b.time) pts) :
    hasSequentialTimestamps pts = true := by
  rw [hasSequentialTimestamps, if_neg (by omega)]
  exact (chainLE_iff pts).mpr hc

theorem ratTrunc_eq_floor {q : Rat} (h : 0 ≤ q) : ratTrunc q = ⌊q⌋ := by
  rw [ratTrunc, Rat.floor_def]
  exact Int.tdiv_eq_ediv (Rat.num_nonneg.mpr h) (Int.ofNat_nonneg _)

theorem ratTrunc_nonneg {q : Rat} (h : 0 ≤ q) : 0 ≤ ratTrunc q :=
  Int.tdiv_nonneg (Rat.num_nonneg.mpr h) (Int.ofNat_nonneg _)

theorem one_le_ratTrunc {q : Rat} (h : 1 ≤ q) : 1 ≤ ratTrunc q := by
  rw [ratTrunc_eq_floor (le_trans zero_le_one h)]
  exact Int.le_floor.mpr (by exact_mod_cast h)

theorem scanTargetIdx_shift (target : Int) :
    ∀ (rest : List TrackPoint) (i : Nat),
      scanTargetIdx rest target (i + 1) i
        = i + (rest.takeWhile (fun p => decide (p.time ≤ target))).length := by
  intro rest
  induction rest with
  | nil => intro i; simp [scanTargetIdx]
  | cons p r ih =>
      intro i
      simp only [scanTargetIdx]
      by_cases hp : p.time ≤ target
      · rw [if_pos hp]
        rw [ih (i + 1)]
        simp only [List.takeWhile_cons, hp, decide_True, if_true, List.length_cons]
        omega
      · rw [if_neg hp]
        simp [List.takeWhile_cons, hp]

theorem scanTargetIdx_le :
    ∀ (pts : List TrackPoint) (target : Int) (i acc : Nat),
      scanTargetIdx pts target i acc ≤ max acc (i + pts.length - 1) := by
  intro pts
  induction pts with
  | nil => intro t i acc; simp [scanTargetIdx]
  | cons p r ih =>
      intro t i acc
      simp only [scanTargetIdx]
      by_cases hp : p.time ≤ t
      · rw [if_pos hp]
        have hr := ih t (i + 1) i
        simp only [List.length_cons] at hr ⊢
        omega
      · rw [if_neg hp]
        simp

theorem takeWhile_first_fail (P : TrackPoint → Bool) (l : List TrackPoint)
    (h : (l.takeWhile P).length < l.length) :
    ¬ P (l.get ⟨(l.takeWhile P).length, h⟩) := by
  induction l with
  | nil => simp at h
  | cons a t ih =>
      by_cases hp : P a
      · simp only [List.takeWhile_cons, hp, if_true] at h ⊢
        simpa using ih (by simpa using h)
      · simpa [List.takeWhile_cons, hp] using hp

theorem scanTargetIdx_eq_takeWhile (pts : List TrackPoint) (target : Int)
    (hne : pts ≠ []) (hfirst : firstTime pts ≤ target) :
    scanTargetIdx pts target 0 0
      = (pts.takeWhile (fun p => decide (p.time ≤ target))).length - 1 := by
  cases pts with
  | nil => exact absurd rfl hne
  | cons p r =>
      have hp : p.time ≤ target := hfirst
      simp only [scanTargetIdx, if_pos hp]
      have hshift := scanTargetIdx_shift target r 0
      simp only [Nat.zero_add] at hshift
      rw [hshift]
      simp [List.takeWhile_cons, hp]

/-- `points[0]`'s timestamp is the `firstTime`. -/
theorem firstTime_eq_get (pts : List TrackPoint) (h : 0 < pts.length) :
    firstTime pts = (pts.get ⟨0, h⟩).time := by
  cases pts with
  | nil => simp at h
  | cons p r => rfl

/-- C3 (amended): for a loaded track with **at least two** points whose
timestamps are non-decreasing end-to-end and a positive replay speed, a
replay tick uses time-based progression: if the target time
`firstTimestamp + trunc(elapsed * ReplaySpeed)` is past the last point's
timestamp the tick marks the replay completed; otherwise the cursor is set
to the greatest point index whose timestamp is `≤` the target time.
(A single-point track falls back to index-based progression because
`hasSequentialTimestamps` requires two points; see the counterexample.) -/
theorem C3_time_based_cursor (st : ReplayState) (now : Int)
    (h2 : 2 ≤ st.points.length)
    (hchain : List.Chain' (fun a b => a.time ≤ b.time) st.points)
    (hspeed : 0 < st.cfg.replaySpeed)
    (hnow : st.replayStartTime ≤ now) :
    (lastTime st.points < replayTargetTime st now →
      (updateReplayPosition st now).replayCompleted = true) ∧
    (replayTargetTime st now ≤ lastTime st.points →
      ∃ m : Nat, (updateReplayPosition st now).replayIndex = (m : Int) ∧
        ∃ hm : m < st.points.length,
          (st.points.get ⟨m, hm⟩).time ≤ replayTargetTime st now ∧
          ∀ k (hk : k < st.points.length),
            (st.points.get ⟨k, hk⟩).time ≤ replayTargetTime st now → k ≤ m) := by
  have hlen0 : ¬(st.points.length = 0) := by omega
  have hne : st.points ≠ [] := by
    intro h
    rw [h] at h2
    simp at h2
  have hseq : hasSequentialTimestamps st.points = true :=
    hasSequentialTimestamps_true h2 hchain
  have hsp : ¬(st.cfg.replaySpeed ≤ 0) := not_le.mpr hspeed
  have hco : coerceReplaySpeed st.cfg.replaySpeed = st.cfg.replaySpeed := if_neg hsp
  have htgt : replayTargetTime st now = firstTime st.points +
      ratTrunc (((now - st.replayStartTime : Int) : Rat) * st.cfg.replaySpeed) := by
    rw [replayTargetTime, hco]
  have hadj : 0 ≤ ratTrunc (((now - st.replayStartTime : Int) : Rat) *
      st.cfg.replaySpeed) := by
    apply ratTrunc_nonneg
    apply mul_nonneg _ (le_of_lt hspeed)
    exact_mod_cast sub_nonneg.mpr hnow
  constructor
  · intro hlast
    rw [htgt] at hlast
    simp only [updateReplayPosition, hlen0, if_false, hsp, hseq, if_true,
      if_pos hlast, ite_false, ge_iff_le, le_refl, if_pos]
    split <;> rfl
  · intro hlast
    rw [htgt] at hlast
    have hnotlast : ¬(lastTime st.points < firstTime st.points +
        ratTrunc (((now - st.replayStartTime : Int) : Rat) * st.cfg.replaySpeed)) :=
      not_lt.mpr hlast
    set tgt := firstTime st.points +
      ratTrunc (((now - st.replayStartTime : Int) : Rat) * st.cfg.replaySpeed)
      with htgtdef
    set tw := st.points.takeWhile (fun p => decide (p.time ≤ tgt)) with htw
    have hscan := scanTargetIdx_eq_takeWhile st.points tgt hne (by omega)
    have htwle : tw.length ≤ st.points.length :=
      (List.takeWhile_prefix _).length_le
    have hlpos : 0 < st.points.length := by omega
    have htwpos : 1 ≤ tw.length := by
      rcases Nat.eq_zero_or_pos tw.length with h0 | h1
      · exfalso
        have hnil : st.points.takeWhile (fun p => decide (p.time ≤ tgt)) = [] := by
          rw [← htw]
          exact List.length_eq_zero.mp h0
        rw [List.takeWhile_eq_nil_iff] at hnil
        apply hnil hlpos
        have h0t : (st.points.get ⟨0, hlpos⟩).time ≤ tgt := by
          rw [← firstTime_eq_get st.points hlpos]
          omega
        simpa using h0t
      · exact h1
    have hscanlt : ¬((scanTargetIdx st.points tgt 0 0 : Int) ≥
        (st.points.length : Int)) := by
      rw [hscan, ← htw]
      have hlt : tw.length - 1 < st.points.length := by omega
      exact not_le.mpr (by exact_mod_cast hlt)
    simp only [updateReplayPosition, hlen0, if_false, hsp, hseq, if_true,
      if_neg hnotlast, if_neg hscanlt]
    refine ⟨tw.length - 1, ?_, ?_⟩
    · rw [hscan, ← htw]
    · have hmlt : tw.length - 1 < st.points.length := by omega
      refine ⟨hmlt, ?_, ?_⟩
      · have hmem : tw.get ⟨tw.length - 1, by omega⟩ ∈ tw :=
          List.get_mem tw (tw.length - 1) (by omega)
        have hP : (fun p => decide (p.time ≤ tgt))
            (tw.get ⟨tw.length - 1, by omega⟩) = true :=
          List.mem_takeWhile_imp (p := fun p => decide (p.time ≤ tgt))
            (l := st.points) hmem
        have hpre : tw <+: st.points := List.takeWhile_prefix _
        have hgeteq : tw.get ⟨tw.length - 1, by omega⟩
            = st.points.get ⟨tw.length - 1, hmlt⟩ := by
          have hg := hpre.getElem (n := tw.length - 1) (by omega)
          simpa [List.get_eq_getElem] using hg
        rw [hgeteq] at hP
        rw [htgt]
        simpa using hP
      · intro k hk hkle
        rw [htgt] at hkle
        by_contra hgt
        push_neg at hgt
        have hkL : tw.length ≤ k := by omega
        have hLlt : tw.length < st.points.length := by omega
        have hfail := takeWhile_first_fail (fun p => decide (p.time ≤ tgt))
          st.points (by rw [← htw]; exact hLlt)
        have hLfail : ¬((st.points.get ⟨tw.length, hLlt⟩).time ≤ tgt) := by
          intro hcon
          apply hfail
          simpa using hcon
        haveI : IsTrans TrackPoint (fun a b => a.time ≤ b.time) :=
          ⟨fun _ _ _ hab hbc => le_trans hab hbc⟩
        have hpw := List.chain'_iff_pairwise.mp hchain
        rw [List.pairwise_iff_getElem] at hpw
        rcases Nat.lt_or_ge tw.length k with hlk | hlk
        · have hle2 := hpw tw.length k hLlt hk hlk
          apply hLfail
          simp only [List.get_eq_getElem] at hkle ⊢
          exact le_trans hle2 hkle
        · have hkeq : k = tw.length := by omega
          apply hLfail
          subst hkeq
          exact hkle

theorem coerceReplaySpeed_pos (q : Rat) : 0 < coerceReplaySpeed q := by
  rw [coerceReplaySpeed]
  split
  · norm_num
  · linarith [not_le.mp (by assumption)]

theorem coerceReplaySpeed_idem (q : Rat) :
    coerceReplaySpeed (coerceReplaySpeed q) = coerceReplaySpeed q := by
  rw [coerceReplaySpeed, if_neg (not_le.mpr (coerceReplaySpeed_pos q))]

/-- A replay tick on a non-empty track is the completion check on
`replayNewIndex` followed by either the loop reset, the completion mark,
or the position copy, always storing the coerced config. -/
theorem updateReplayPosition_spec (st : ReplayState) (now : Int)
    (hlen0 : ¬st.points.length = 0) :
    updateReplayPosition st now =
      if replayNewIndex st now ≥ (st.points.length : Int) then
        if st.cfg.replayLoop then
          { st with
              cfg := coerceCfg st.cfg
              replayIndex := 0
              replayStartTime := now
              replayCompleted := true }
        else
          { st with
              cfg := coerceCfg st.cfg
              replayIndex := replayNewIndex st now
              replayCompleted := true }
      else
        { st with
            cfg := coerceCfg st.cfg
            replayIndex := replayNewIndex st now
            lat := (st.points.getD (replayNewIndex st now).toNat ⟨0, 0, 0, 0⟩).lat
            lon := (st.points.getD (replayNewIndex st now).toNat ⟨0, 0, 0, 0⟩).lon
            alt := (st.points.getD (replayNewIndex st now).toNat
              ⟨0, 0, 0, 0⟩).elevation } := by
  obtain ⟨⟨sp, lp⟩, pts, idx, rst, comp, la, lo, al⟩ := st
  by_cases hsp : sp ≤ 0 <;>
    simp [updateReplayPosition, replayNewIndex, coerceCfg, coerceReplaySpeed,
      hsp, hlen0]

/-- The config stored by a replay tick on a non-empty track is always the
coerced config. -/
theorem updateReplayPosition_cfg (st : ReplayState) (now : Int)
    (hlen0 : ¬st.points.length = 0) :
    (updateReplayPosition st now).cfg = coerceCfg st.cfg := by
  rw [updateReplayPosition_spec st now hlen0]
  split
  · split <;> rfl
  · rfl

theorem pointIntervalNs_pos {q : Rat} (h0 : 0 < q) (hub : q ≤ 1000000000) :
    0 < pointIntervalNs q := by
  rw [pointIntervalNs]
  have h1 : (1 : Rat) ≤ 1000000000 / q := by
    rw [le_div_iff h0]
    linarith
  linarith [one_le_ratTrunc h1]

theorem replayNewIndex_bounds_seq (st : ReplayState) (now : Int)
    (hlen : 1 ≤ st.points.length)
    (hseq : hasSequentialTimestamps st.points = true) :
    0 ≤ replayNewIndex st now ∧
      replayNewIndex st now ≤ (st.points.length : Int) := by
  simp only [replayNewIndex, hseq, if_true]
  split
  · exact ⟨Int.ofNat_nonneg _, le_refl _⟩
  · refine ⟨Int.ofNat_nonneg _, ?_⟩
    have hb := scanTargetIdx_le st.points
      (firstTime st.points + ratTrunc (((now - st.replayStartTime : Int) : Rat) *
        coerceReplaySpeed st.cfg.replaySpeed)) 0 0
    simp only [Nat.zero_add, Nat.zero_le, max_eq_right] at hb
    have hlt : scanTargetIdx st.points
        (firstTime st.points + ratTrunc (((now - st.replayStartTime : Int) : Rat) *
          coerceReplaySpeed st.cfg.replaySpeed)) 0 0 ≤ st.points.length := by
      omega
    exact_mod_cast hlt

theorem replayNewIndex_bounds_loop (st : ReplayState) (now : Int)
    (hlen : 1 ≤ st.points.length) (hnow : st.replayStartTime ≤ now)
    (hub : st.cfg.replaySpeed ≤ 1000000000)
    (hseqf : hasSequentialTimestamps st.points = false)
    (hloop : st.cfg.replayLoop = true) :
    0 ≤ replayNewIndex st now ∧
      replayNewIndex st now < (st.points.length : Int) := by
  have hub2 : coerceReplaySpeed st.cfg.replaySpeed ≤ 1000000000 := by
    rw [coerceReplaySpeed]
    split
    · norm_num
    · exact hub
  have hint := pointIntervalNs_pos (coerceReplaySpeed_pos st.cfg.replaySpeed) hub2
  have hpsc : 0 ≤ Int.tdiv (now - st.replayStartTime)
      (pointIntervalNs (coerceReplaySpeed st.cfg.replaySpeed)) :=
    Int.tdiv_nonneg (by omega) (le_of_lt hint)
  simp only [replayNewIndex, hseqf, Bool.false_eq_true, if_false, hloop, if_true]
  refine ⟨Int.tmod_nonneg _ hpsc, Int.tmod_lt_of_pos _ (by exact_mod_cast hlen)⟩

theorem replayNewIndex_noloop (st : ReplayState) (now : Int)
    (hseqf : hasSequentialTimestamps st.points = false)
    (hloopf : st.cfg.replayLoop = false) :
    replayNewIndex st now = Int.tdiv (now - st.replayStartTime)
      (pointIntervalNs (coerceReplaySpeed st.cfg.replaySpeed)) := by
  simp only [replayNewIndex, hseqf, Bool.false_eq_true, if_false, hloopf]

/-- C4 (amended): after a replay tick on a non-empty loaded track (with a
positive elapsed time and a replay speed of at most one second's worth of
nanoseconds, so Go's interval division is defined): in time-based mode, or
whenever looping is on, the cursor lands in `[0, len]` and equals `len`
only together with the completion flag; in index-based non-looping mode
the cursor equals `elapsed / pointInterval`, which is **not** bounded by
`len`, and any value `≥ len` sets the completion flag. -/
theorem C4_replay_cursor (st : ReplayState) (now : Int)
    (hlen : 1 ≤ st.points.length)
    (hnow : st.replayStartTime ≤ now)
    (hub : st.cfg.replaySpeed ≤ 1000000000) :
    ((hasSequentialTimestamps st.points = true ∨ st.cfg.replayLoop = true) →
      0 ≤ (updateReplayPosition st now).replayIndex ∧
      (updateReplayPosition st now).replayIndex ≤ (st.points.length : Int) ∧
      ((updateReplayPosition st now).replayIndex = (st.points.length : Int) →
        (updateReplayPosition st now).replayCompleted = true)) ∧
    (hasSequentialTimestamps st.points = false → st.cfg.replayLoop = false →
      (updateReplayPosition st now).replayIndex
          = Int.tdiv (now - st.replayStartTime)
              (pointIntervalNs (coerceReplaySpeed st.cfg.replaySpeed)) ∧
      ((st.points.length : Int) ≤ (updateReplayPosition st now).replayIndex →
        (updateReplayPosition st now).replayCompleted = true)) := by
  have hlen0 : ¬st.points.length = 0 := by omega
  rw [updateReplayPosition_spec st now hlen0]
  constructor
  · intro hcase
    have hN : 0 ≤ replayNewIndex st now ∧
        replayNewIndex st now ≤ (st.points.length : Int) := by
      by_cases hseq : hasSequentialTimestamps st.points = true
      · exact replayNewIndex_bounds_seq st now hlen hseq
      · have hseqf : hasSequentialTimestamps st.points = false := by
          revert hseq
          cases hasSequentialTimestamps st.points <;> simp
        have hloop : st.cfg.replayLoop = true := by
          rcases hcase with h | h
          · exact absurd h hseq
          · exact h
        obtain ⟨h1, h2⟩ := replayNewIndex_bounds_loop st now hlen hnow hub hseqf hloop
        exact ⟨h1, le_of_lt h2⟩
    by_cases hge : replayNewIndex st now ≥ (st.points.length : Int)
    · rw [if_pos hge]
      by_cases hloop : st.cfg.replayLoop = true
      · rw [if_pos hloop]
        refine ⟨le_refl 0, ?_, fun _ => rfl⟩
        show (0 : Int) ≤ (st.points.length : Int)
        exact Int.ofNat_nonneg _
      · rw [if_neg hloop]
        exact ⟨hN.1, hN.2, fun _ => rfl⟩
    · rw [if_neg hge]
      push_neg at hge
      refine ⟨hN.1, hN.2, fun heq => ?_⟩
      exfalso
      have hproj : ({ st with
          cfg := coerceCfg st.cfg
          replayIndex := replayNewIndex st now
          lat := (st.points.getD (replayNewIndex st now).toNat ⟨0, 0, 0, 0⟩).lat
          lon := (st.points.getD (replayNewIndex st now).toNat ⟨0, 0, 0, 0⟩).lon
          alt := (st.points.getD (replayNewIndex st now).toNat
            ⟨0, 0, 0, 0⟩).elevation } : ReplayState).replayIndex
          = replayNewIndex st now := rfl
      rw [hproj] at heq
      omega
  · intro hseqf hloopf
    have hNval := replayNewIndex_noloop st now hseqf hloopf
    by_cases hge : replayNewIndex st now ≥ (st.points.length : Int)
    · rw [if_pos hge, if_neg (by simp [hloopf])]
      exact ⟨hNval ▸ rfl, fun _ => rfl⟩
    · rw [if_neg hge]
      push_neg at hge
      refine ⟨hNval ▸ rfl, fun hle => ?_⟩
      exfalso
      have hproj : ({ st with
          cfg := coerceCfg st.cfg
          replayIndex := replayNewIndex st now
          lat := (st.points.getD (replayNewIndex st now).toNat ⟨0, 0, 0, 0⟩).lat
          lon := (st.points.getD (replayNewIndex st now).toNat ⟨0, 0, 0, 0⟩).lon
          alt := (st.points.getD (replayNewIndex st now).toNat
            ⟨0, 0, 0, 0⟩).elevation } : ReplayState).replayIndex
          = replayNewIndex st now := rfl
      rw [hproj] at hle
      omega

/-- Counterexample to C3 as stated: a single-point track has (vacuously)
non-decreasing timestamps and, at elapsed `0.5 s` with speed 1, a target
time strictly past the last timestamp, yet the tick does **not** mark the
replay completed (it silently uses index-based progression, because
`hasSequentialTimestamps` returns `false` below two points). -/
theorem C3_counterexample :
    List.Chain' (fun a b => a.time ≤ b.time) c3State.points ∧
    0 < c3State.cfg.replaySpeed ∧
    c3State.replayStartTime ≤ 500000000 ∧
    lastTime c3State.points < replayTargetTime c3State 500000000 ∧
    (updateReplayPosition c3State 500000000).replayCompleted = false := by
  have hlen : ¬c3State.points.length = 0 := by simp [c3State]
  have hseqf : hasSequentialTimestamps c3State.points = false := by
    simp [hasSequentialTimestamps, c3State]
  have hco : coerceReplaySpeed c3State.cfg.replaySpeed = 1 := by
    norm_num [coerceReplaySpeed, c3State]
  have hint : pointIntervalNs (coerceReplaySpeed c3State.cfg.replaySpeed)
      = 1000000000 := by
    rw [hco]
    norm_num [pointIntervalNs, ratTrunc]
  have hloopf : c3State.cfg.replayLoop = false := rfl
  have hN : replayNewIndex c3State 500000000 = 0 := by
    rw [replayNewIndex_noloop c3State 500000000 hseqf hloopf, hint]
    norm_num [c3State]
    decide
  refine ⟨?_, ?_, ?_, ?_, ?_⟩
  · simp [c3State]
  · norm_num [c3State]
  · norm_num [c3State]
  · have htrunc : ratTrunc (((500000000 - c3State.replayStartTime : Int) : Rat) *
        coerceReplaySpeed c3State.cfg.replaySpeed) = 500000000 := by
      rw [hco]
      norm_num [c3State, ratTrunc]
    rw [replayTargetTime, htrunc]
    norm_num [c3State, lastTime, firstTime]
  · rw [updateReplayPosition_spec c3State 500000000 hlen, hN]
    rw [if_neg (by norm_num [c3State])]
    rfl

/-- Witness for C3 (amended) at a concrete two-point track. -/
theorem C3_time_based_cursor_witness :
    (lastTime c3WitState.points < replayTargetTime c3WitState 500000000 →
      (updateReplayPosition c3WitState 500000000).replayCompleted = true) ∧
    (replayTargetTime c3WitState 500000000 ≤ lastTime c3WitState.points →
      ∃ m : Nat,
        (updateReplayPosition c3WitState 500000000).replayIndex = (m : Int) ∧
        ∃ hm : m < c3WitState.points.length,
          (c3WitState.points.get ⟨m, hm⟩).time
              ≤ replayTargetTime c3WitState 500000000 ∧
          ∀ k (hk : k < c3WitState.points.length),
            (c3WitState.points.get ⟨k, hk⟩).time
                ≤ replayTargetTime c3WitState 500000000 → k ≤ m) :=
  C3_time_based_cursor c3WitState 500000000 (by norm_num [c3WitState])
    (by norm_num [c3WitState, List.chain'_cons]) (by norm_num [c3WitState])
    (by norm_num [c3WitState])

/-- Counterexample to C4 as stated: the single-point track, three seconds
into a non-looping replay at speed 1, leaves the cursor at `3`, strictly
above `len(points) = 1`. -/
theorem C4_counterexample :
    c4State.points.length = 1 ∧
    (updateReplayPosition c4State 3000000000).replayIndex = 3 ∧
    ¬((updateReplayPosition c4State 3000000000).replayIndex
        ≤ (c4State.points.length : Int)) ∧
    (updateReplayPosition c4State 3000000000).replayCompleted = true := by
  have hlen : ¬c4State.points.length = 0 := by simp [c4State]
  have hseqf : hasSequentialTimestamps c4State.points = false := by
    simp [hasSequentialTimestamps, c4State]
  have hco : coerceReplaySpeed c4State.cfg.replaySpeed = 1 := by
    norm_num [coerceReplaySpeed, c4State]
  have hint : pointIntervalNs (coerceReplaySpeed c4State.cfg.replaySpeed)
      = 1000000000 := by
    rw [hco]
    norm_num [pointIntervalNs, ratTrunc]
  have hloopf : c4State.cfg.replayLoop = false := rfl
  have hN : replayNewIndex c4State 3000000000 = 3 := by
    rw [replayNewIndex_noloop c4State 3000000000 hseqf hloopf, hint]
    norm_num [c4State]
    decide
  have hupd := updateReplayPosition_spec c4State 3000000000 hlen
  rw [hN] at hupd
  rw [if_pos (by norm_num [c4State]), if_neg (by simp [c4State])] at hupd
  refine ⟨by simp [c4State], ?_, ?_, ?_⟩ <;> rw [hupd] <;> simp [c4State]

/-- Witness for C4 (amended) at a concrete two-point track. -/
theorem C4_replay_cursor_witness :
    ((hasSequentialTimestamps c4WitState.points = true ∨
        c4WitState.cfg.replayLoop = true) →
      0 ≤ (updateReplayPosition c4WitState 2000000000).replayIndex ∧
      (updateReplayPosition c4WitState 2000000000).replayIndex
          ≤ (c4WitState.points.length : Int) ∧
      ((updateReplayPosition c4WitState 2000000000).replayIndex
            = (c4WitState.points.length : Int) →
        (updateReplayPosition c4WitState 2000000000).replayCompleted = true)) ∧
    (hasSequentialTimestamps c4WitState.points = false →
      c4WitState.cfg.replayLoop = false →
      (updateReplayPosition c4WitState 2000000000).replayIndex
          = Int.tdiv (2000000000 - c4WitState.replayStartTime)
              (pointIntervalNs (coerceReplaySpeed c4WitState.cfg.replaySpeed)) ∧
      ((c4WitState.points.length : Int)
            ≤ (updateReplayPosition c4WitState 2000000000).replayIndex →
        (updateReplayPosition c4WitState 2000000000).replayCompleted = true)) :=
  C4_replay_cursor c4WitState 2000000000 (by norm_num [c4WitState])
    (by norm_num [c4WitState]) (by norm_num [c4WitState])

/-- C9: on a replay tick over a loaded track, a non-positive stored replay
speed is coerced to `1.0` in the stored config; a positive one is kept
unchanged; the speed actually used (`coerceReplaySpeed`) is positive, so
the interval division has a positive divisor; and the tick computes
exactly what it would compute from the already-coerced state (it
"proceeds normally"). -/
theorem C9_replay_speed_defensive (st : ReplayState) (now : Int)
    (hne : ¬st.points.length = 0) :
    (st.cfg.replaySpeed ≤ 0 → (updateReplayPosition st now).cfg.replaySpeed = 1) ∧
    (0 < st.cfg.replaySpeed → (updateReplayPosition st now).cfg = st.cfg) ∧
    0 < coerceReplaySpeed st.cfg.replaySpeed ∧
    updateReplayPosition st now
      = updateReplayPosition { st with cfg := coerceCfg st.cfg } now := by
  refine ⟨?_, ?_, coerceReplaySpeed_pos _, ?_⟩
  · intro h
    rw [updateReplayPosition_cfg st now hne]
    simp [coerceCfg, coerceReplaySpeed, h]
  · intro h
    rw [updateReplayPosition_cfg st now hne]
    obtain ⟨⟨sp, lp⟩, pts, idx, rst, comp, la, lo, al⟩ := st
    simp only at h
    simp [coerceCfg, coerceReplaySpeed, not_le.mpr h]
  · have hne2 : ¬({ st with cfg := coerceCfg st.cfg } : ReplayState).points.length
        = 0 := hne
    rw [updateReplayPosition_spec st now hne,
      updateReplayPosition_spec _ now hne2]
    have hNidx : replayNewIndex { st with cfg := coerceCfg st.cfg } now
        = replayNewIndex st now := by
      simp [replayNewIndex, coerceCfg, coerceReplaySpeed_idem]
    have hcfg2 : coerceCfg (coerceCfg st.cfg) = coerceCfg st.cfg := by
      simp [coerceCfg, coerceReplaySpeed_idem]
    obtain ⟨cfg, pts, idx, rst, comp, la, lo, al⟩ := st
    simp only at hNidx hcfg2 ⊢
    rw [hNidx, hcfg2]
    rfl

/-- Witness for C9 at a concrete state whose stored replay speed is `0`. -/
theorem C9_replay_speed_defensive_witness :
    (c9State.cfg.replaySpeed ≤ 0 →
      (updateReplayPosition c9State 100).cfg.replaySpeed = 1) ∧
    (0 < c9State.cfg.replaySpeed →
      (updateReplayPosition c9State 100).cfg = c9State.cfg) ∧
    0 < coerceReplaySpeed c9State.cfg.replaySpeed ∧
    updateReplayPosition c9State 100
      = updateReplayPosition { c9State with cfg := coerceCfg c9State.cfg } 100 :=
  C9_replay_speed_defensive c9State 100 (by norm_num [c9State])

/-- C10: `UpdateConfig` with a valid new config succeeds, replaces only the
stored config (restarting the ticker exactly when running and the output
rate changed) and leaves every other state field — position, altitude,
speed, course, lock flag, satellites, replay cursor and flags, running
flag — unchanged; with an invalid new config it returns that validation
error and the state entirely unchanged. -/
theorem C10_updateConfig_frame (s : Simulator) (c : Config) :
    (c.Validate = none →
      (UpdateConfig s c).2 = none ∧
      (UpdateConfig s c).1.config = c ∧
      (UpdateConfig s c).1.currentLat = s.currentLat ∧
      (UpdateConfig s c).1.currentLon = s.currentLon ∧
      (UpdateConfig s c).1.currentAlt = s.currentAlt ∧
      (UpdateConfig s c).1.currentSpeed = s.currentSpeed ∧
      (UpdateConfig s c).1.currentCourse = s.currentCourse ∧
      (UpdateConfig s c).1.isLocked = s.isLocked ∧
      (UpdateConfig s c).1.satellites = s.satellites ∧
      (UpdateConfig s c).1.replayPoints = s.replayPoints ∧
      (UpdateConfig s c).1.replayIndex = s.replayIndex ∧
      (UpdateConfig s c).1.replayCompleted = s.replayCompleted ∧
      (UpdateConfig s c).1.running = s.running ∧
      (UpdateConfig s c).1.tickerRate =
        (if s.running = true ∧ s.config.outputRate ≠ c.outputRate
         then c.outputRate else s.tickerRate)) ∧
    (∀ e, c.Validate = some e → UpdateConfig s c = (s, some e)) := by
  constructor
  · intro hv
    simp only [UpdateConfig, hv]
    by_cases hc : s.running = true ∧ s.config.outputRate ≠ c.outputRate
    · rw [if_pos hc, if_pos hc]
      exact ⟨rfl, rfl, rfl, rfl, rfl, rfl, rfl, rfl, rfl, rfl, rfl, rfl, rfl, rfl⟩
    · rw [if_neg hc, if_neg hc]
      exact ⟨rfl, rfl, rfl, rfl, rfl, rfl, rfl, rfl, rfl, rfl, rfl, rfl, rfl, rfl⟩
  · intro e he
    simp [UpdateConfig, he]

/-- Witness for C10 at a concrete running simulator: `defaultConfig` (with
a changed output rate) is accepted and restarts the ticker; `badConfig`
(3 satellites) is rejected leaving the state untouched. -/
theorem C10_updateConfig_frame_witness :
    (defaultConfig.Validate = none ∧
      (UpdateConfig simExample defaultConfig).2 = none ∧
      (UpdateConfig simExample defaultConfig).1.config = defaultConfig ∧
      (UpdateConfig simExample defaultConfig).1.currentLat
        = simExample.currentLat ∧
      (UpdateConfig simExample defaultConfig).1.replayIndex
        = simExample.replayIndex ∧
      (UpdateConfig simExample defaultConfig).1.tickerRate
        = defaultConfig.outputRate) ∧
    (badConfig.Validate = some GpsError.invalidSatelliteCount ∧
      UpdateConfig simExample badConfig
        = (simExample, some GpsError.invalidSatelliteCount)) := by
  have hv : defaultConfig.Validate = none := by
    norm_num [Config.Validate, defaultConfig]
  have hb : badConfig.Validate = some GpsError.invalidSatelliteCount := by
    norm_num [Config.Validate, badConfig, defaultConfig]
  have h1 := (C10_updateConfig_frame simExample defaultConfig).1 hv
  have h2 := (C10_updateConfig_frame simExample badConfig).2
    GpsError.invalidSatelliteCount hb
  obtain ⟨ha, hcfg, hlat, -, -, -, -, -, -, -, hidx, -, -, hticker⟩ := h1
  refine ⟨⟨hv, ha, hcfg, hlat, hidx, ?_⟩, hb, h2⟩
  rw [hticker, if_pos]
  constructor
  · rfl
  · norm_num [simExample, defaultConfig]

theorem wrapAdd360_nonneg (c : ℝ) : 0 ≤ wrapAdd360 c := by
  induction c using wrapAdd360.induct with
  | case1 c h ih =>
      rw [wrapAdd360, if_pos h]
      exact ih
  | case2 c h =>
      rw [wrapAdd360, if_neg h]
      linarith [not_lt.mp h]

theorem wrapAdd360_lt (c : ℝ) (hc : c < 360) : wrapAdd360 c < 360 := by
  induction c using wrapAdd360.induct with
  | case1 c h ih =>
      rw [wrapAdd360, if_pos h]
      exact ih (by linarith)
  | case2 c h =>
      rw [wrapAdd360, if_neg h]
      exact hc

theorem wrapAdd360_of_nonneg {c : ℝ} (h : 0 ≤ c) : wrapAdd360 c = c := by
  rw [wrapAdd360, if_neg (not_lt.mpr h)]

theorem wrapSub360_lt (c : ℝ) : wrapSub360 c < 360 := by
  induction c using wrapSub360.induct with
  | case1 c h ih =>
      rw [wrapSub360, if_pos h]
      exact ih
  | case2 c h =>
      rw [wrapSub360, if_neg h]
      linarith [not_le.mp h]

theorem wrapSub360_nonneg (c : ℝ) (hc : 0 ≤ c) : 0 ≤ wrapSub360 c := by
  induction c using wrapSub360.induct with
  | case1 c h ih =>
      rw [wrapSub360, if_pos h]
      exact ih (by linarith)
  | case2 c h =>
      rw [wrapSub360, if_neg h]
      exact hc

theorem wrapSub360_of_lt {c : ℝ} (h : c < 360) : wrapSub360 c = c := by
  rw [wrapSub360, if_neg (not_le.mpr h)]

/-- The sequential wrap loops land every real course in `[0, 360)`. -/
theorem normalizeCourse_mem (c : ℝ) :
    0 ≤ normalizeCourse c ∧ normalizeCourse c < 360 :=
  ⟨wrapSub360_nonneg _ (wrapAdd360_nonneg c), wrapSub360_lt _⟩

theorem normalizeCourse_of_mem {c : ℝ} (h0 : 0 ≤ c) (h1 : c < 360) :
    normalizeCourse c = c := by
  rw [normalizeCourse, wrapAdd360_of_nonneg h0, wrapSub360_of_lt h1]

theorem wrapLonHigh_of_le {c : ℝ} (h : c ≤ 180) : wrapLonHigh c = c := by
  rw [wrapLonHigh, if_neg (not_lt.mpr h)]

theorem wrapLonLow_of_ge {c : ℝ} (h : -180 ≤ c) : wrapLonLow c = c := by
  rw [wrapLonLow, if_neg (not_lt.mpr h)]

theorem normalizeLon_of_mem {c : ℝ} (h0 : -180 ≤ c) (h1 : c ≤ 180) :
    normalizeLon c = c := by
  rw [normalizeLon, wrapLonHigh_of_le h1, wrapLonLow_of_ge h0]

theorem atan2_zero_of_nonneg {x : ℝ} (h : 0 ≤ x) : atan2 0 x = 0 := by
  rcases lt_or_eq_of_le h with h1 | h1
  · rw [atan2, if_pos h1, zero_div, Real.arctan_zero]
  · subst h1
    norm_num [atan2]

theorem updateSpeedAndCourse_speed_nonneg (cfg : MotionConfig) (st : MotionState)
    (r1 r2 : ℝ) : 0 ≤ (updateSpeedAndCourse cfg st r1 r2).speed := by
  simp only [updateSpeedAndCourse]
  split_ifs with h1 <;> simp_all

theorem updateSpeedAndCourse_course_mem (cfg : MotionConfig) (st : MotionState)
    (r1 r2 : ℝ) :
    0 ≤ (updateSpeedAndCourse cfg st r1 r2).course ∧
      (updateSpeedAndCourse cfg st r1 r2).course < 360 := by
  simp only [updateSpeedAndCourse]
  exact normalizeCourse_mem _

theorem updatePosition_speed (cfg : MotionConfig) (st : MotionState) (dt rB : ℝ) :
    (updatePosition cfg st dt rB).speed = st.speed := by
  simp only [updatePosition]
  split_ifs <;> rfl

theorem updatePosition_course_mem (cfg : MotionConfig) (st : MotionState)
    (dt rB : ℝ) (h0 : 0 ≤ st.course) (h1 : st.course < 360) :
    0 ≤ (updatePosition cfg st dt rB).course ∧
      (updatePosition cfg st dt rB).course < 360 := by
  simp only [updatePosition]
  split_ifs
  · exact ⟨h0, h1⟩
  · exact normalizeCourse_mem _
  · exact ⟨h0, h1⟩
  · exact ⟨h0, h1⟩

theorem updateAltitude_course_speed (cfg : MotionConfig) (st : MotionState)
    (r3 : ℝ) :
    (updateAltitude cfg st r3).course = st.course ∧
      (updateAltitude cfg st r3).speed = st.speed := by
  simp only [updateAltitude]
  split_ifs <;> exact ⟨rfl, rfl⟩

/-- C5: after a motion-model tick with any jitter in `[0,1]` (indeed with
any configuration at all), the current course lies in `[0,360)` — it is
normalized by the repeated-wraparound loops — and the current speed is
never negative (clamped at zero). -/
theorem C5_course_speed (cfg : MotionConfig) (st : MotionState)
    (r1 r2 rB r3 dt : ℝ) (hj0 : 0 ≤ cfg.jitter) (hj1 : cfg.jitter ≤ 1) :
    0 ≤ (motionTick cfg st r1 r2 rB r3 dt).course ∧
    (motionTick cfg st r1 r2 rB r3 dt).course < 360 ∧
    0 ≤ (motionTick cfg st r1 r2 rB r3 dt).speed := by
  rw [motionTick]
  have hsc := updateSpeedAndCourse_course_mem cfg st r1 r2
  have hsp := updateSpeedAndCourse_speed_nonneg cfg st r1 r2
  have hpc := updatePosition_course_mem cfg (updateSpeedAndCourse cfg st r1 r2)
    dt rB hsc.1 hsc.2
  have hps := updatePosition_speed cfg (updateSpeedAndCourse cfg st r1 r2) dt rB
  obtain ⟨hA1, hA2⟩ := updateAltitude_course_speed cfg
    (updatePosition cfg (updateSpeedAndCourse cfg st r1 r2) dt rB) r3
  rw [hA1, hA2, hps]
  exact ⟨hpc.1, hpc.2, hsp⟩

/-- Witness for C5 at the concrete half-jitter configuration. -/
theorem C5_course_speed_witness :
    (0 : ℝ) ≤ c5Cfg.jitter ∧ c5Cfg.jitter ≤ 1 ∧
    (0 ≤ (motionTick c5Cfg c5St 0.3 0.9 0.2 0.7 1).course ∧
    (motionTick c5Cfg c5St 0.3 0.9 0.2 0.7 1).course < 360 ∧
    0 ≤ (motionTick c5Cfg c5St 0.3 0.9 0.2 0.7 1).speed) :=
  ⟨by norm_num [c5Cfg], by norm_num [c5Cfg],
    C5_course_speed c5Cfg c5St 0.3 0.9 0.2 0.7 1 (by norm_num [c5Cfg])
      (by norm_num [c5Cfg])⟩

/-- Projecting a zero distance from a position with in-range coordinates
returns the position unchanged (idealized arithmetic). -/
theorem calculateNewPosition_zero (lat lon b : ℝ) (hla : -90 ≤ lat)
    (hlb : lat ≤ 90) (hlo : -180 ≤ lon) (hlo2 : lon ≤ 180) :
    calculateNewPosition lat lon 0 b = (lat, lon) := by
  have hpi : (0 : ℝ) < Real.pi := Real.pi_pos
  have hlow : -(Real.pi / 2) ≤ lat * Real.pi / 180 := by nlinarith
  have hhigh : lat * Real.pi / 180 ≤ Real.pi / 2 := by nlinarith
  have hs1 := Real.sin_le_one (lat * Real.pi / 180)
  have hs2 := Real.neg_one_le_sin (lat * Real.pi / 180)
  simp only [calculateNewPosition, zero_div, Real.sin_zero, Real.cos_zero,
    mul_zero, zero_mul, mul_one, add_zero, sub_zero]
  rw [Real.arcsin_sin hlow hhigh]
  rw [atan2_zero_of_nonneg (by nlinarith :
    (0 : ℝ) ≤ 1 - Real.sin (lat * Real.pi / 180) * Real.sin (lat * Real.pi / 180))]
  have hfst : lat * Real.pi / 180 * 180 / Real.pi = lat := by
    field_simp
  have hsnd : (lon * Real.pi / 180 + 0) * 180 / Real.pi = lon := by
    field_simp
  rw [hfst, hsnd, normalizeLon_of_mem hlo hlo2]

/-- The Haversine distance from a point to itself is zero. -/
theorem calculateDistance_self (a b : ℝ) : calculateDistance a b a b = 0 := by
  simp only [calculateDistance, sub_self, zero_mul, zero_div, Real.sin_zero,
    mul_zero, add_zero, Real.sqrt_zero, sub_zero, Real.sqrt_one]
  rw [atan2_zero_of_nonneg (by norm_num : (0:ℝ) ≤ 1)]
  ring

theorem updateSpeedAndCourse_c8 (r1 r2 : ℝ) :
    updateSpeedAndCourse c8Cfg c8St r1 r2 = c8St := by
  simp only [updateSpeedAndCourse, c8Cfg, c8St]
  norm_num
  exact normalizeCourse_of_mem le_rfl (by norm_num)

theorem updatePosition_c8 (dt rB : ℝ) : updatePosition c8Cfg c8St dt rB = c8St := by
  by_cases hdt : dt ≤ 0
  · rw [updatePosition, if_pos hdt]
  · have hcand : gpsCandidate c8St dt = (37.7749, -122.4194) := by
      rw [gpsCandidate]
      have hz : c8St.speed * 0.514444 * dt = 0 := by
        simp [c8St]
      rw [hz]
      have h1 : c8St.lat = 37.7749 := rfl
      have h2 : c8St.lon = -122.4194 := rfl
      rw [h1, h2]
      exact calculateNewPosition_zero _ _ _ (by norm_num) (by norm_num)
        (by norm_num) (by norm_num)
    have hdist : distanceFromCenter c8Cfg 37.7749 (-122.4194) = 0 := by
      rw [distanceFromCenter]
      have h1 : c8Cfg.latitude = 37.7749 := rfl
      have h2 : c8Cfg.longitude = -122.4194 := rfl
      rw [h1, h2]
      exact calculateDistance_self _ _
    simp only [updatePosition, if_neg hdt, hcand, hdist]
    rw [if_neg (by norm_num [c8Cfg])]
    rfl

theorem updateAltitude_c8 (r3 : ℝ) : updateAltitude c8Cfg c8St r3 = c8St := by
  rw [updateAltitude, if_neg]
  norm_num [c8Cfg]

/-- C8: with origin `(37.7749, -122.4194)`, radius 100, speed 0, course 0
and jitter 0, any number of motion ticks (arbitrary random draws and tick
deltas) leaves the position exactly at the origin. -/
theorem C8_zero_jitter_stationary (n : ℕ) (r1 r2 rB r3 dt : ℕ → ℝ) :
    (motionTicks c8Cfg c8St r1 r2 rB r3 dt n).lat = 37.7749 ∧
    (motionTicks c8Cfg c8St r1 r2 rB r3 dt n).lon = -122.4194 := by
  have key : ∀ m, motionTicks c8Cfg c8St r1 r2 rB r3 dt m = c8St := by
    intro m
    induction m with
    | zero => rfl
    | succ m ih =>
        rw [motionTicks, ih, motionTick, updateSpeedAndCourse_c8,
          updatePosition_c8, updateAltitude_c8]
  rw [key n]
  exact ⟨rfl, rfl⟩

theorem atan2_pos_x (y x : ℝ) (hx : 0 < x) : atan2 y x = Real.arctan (y / x) := by
  rw [atan2, if_pos hx]

/-- Projecting a quarter Earth circumference due north from the
origin lands at latitude 90, longitude 0. -/
theorem calculateNewPosition_quarter :
    calculateNewPosition 0 0 (6371000 * (Real.pi / 2)) 0 = (90, 0) := by
  have hpi : (0 : ℝ) < Real.pi := Real.pi_pos
  have hang : (6371000 : ℝ) * (Real.pi / 2) / 6371000 = Real.pi / 2 := by
    field_simp
    ring
  simp only [calculateNewPosition, zero_mul, zero_div, hang, Real.sin_zero,
    Real.cos_zero, Real.sin_pi_div_two, Real.cos_pi_div_two, mul_one, one_mul,
    mul_zero, zero_add, add_zero, sub_zero, zero_sub, Real.arcsin_one]
  rw [atan2_zero_of_nonneg le_rfl]
  have hfst : Real.pi / 2 * 180 / Real.pi = 90 := by
    field_simp
    ring
  have hsnd : (0 : ℝ) * 180 / Real.pi = 0 := by
    norm_num
  rw [hfst, hsnd, normalizeLon_of_mem (by norm_num) (by norm_num)]

/-- The Haversine distance from the origin to the north pole is a quarter
circumference. -/
theorem calculateDistance_quarter :
    calculateDistance 0 0 90 0 = 6371000 * (Real.pi / 2) := by
  have hpi : (0 : ℝ) < Real.pi := Real.pi_pos
  have h90 : ((90 : ℝ) - 0) * Real.pi / 180 = Real.pi / 2 := by ring
  have h902 : (90 : ℝ) * Real.pi / 180 = Real.pi / 2 := by ring
  have hhalf : Real.pi / 2 / 2 = Real.pi / 4 := by ring
  simp only [calculateDistance, h90, h902, sub_zero, sub_self, zero_mul,
    zero_div, Real.sin_zero, Real.cos_zero, Real.cos_pi_div_two, mul_zero,
    zero_add, add_zero, one_mul, mul_one, hhalf, Real.sin_pi_div_four]
  have ha : Real.sqrt 2 / 2 * (Real.sqrt 2 / 2) = 1 / 2 := by
    rw [div_mul_div_comm, Real.mul_self_sqrt (by norm_num : (0:ℝ) ≤ 2)]
    norm_num
  rw [ha]
  have hsq : (0 : ℝ) < Real.sqrt (1 / 2) :=
    Real.sqrt_pos.mpr (by norm_num)
  have h1 : (1 : ℝ) - 1 / 2 = 1 / 2 := by norm_num
  rw [h1, atan2_pos_x _ _ hsq, div_self (ne_of_gt hsq), Real.arctan_one]
  ring

/-- The bearing from the origin to the north pole is 0 (due north). -/
theorem calculateBearing_north : calculateBearing 0 0 90 0 = 0 := by
  have h902 : (90 : ℝ) * Real.pi / 180 = Real.pi / 2 := by ring
  simp only [calculateBearing, h902, sub_zero, sub_self, zero_mul, zero_div,
    Real.sin_zero, Real.cos_zero, Real.sin_pi_div_two, Real.cos_pi_div_two,
    mul_zero, mul_one, one_mul, zero_sub, neg_zero]
  rw [atan2_zero_of_nonneg (by norm_num : (0:ℝ) ≤ 1)]
  rw [zero_mul, zero_div, if_neg (lt_irrefl 0)]

theorem c2Speed_dist : c2Speed * 0.514444 * 1 = 6371000 * (Real.pi / 2) := by
  rw [c2Speed, mul_one, div_mul_cancel₀]
  norm_num

theorem c2St_candidate : gpsCandidate c2St 1 = (90, 0) := by
  rw [gpsCandidate]
  have h1 : c2St.lat = 0 := rfl
  have h2 : c2St.lon = 0 := rfl
  have h3 : c2St.course = 0 := rfl
  have h4 : c2St.speed = c2Speed := rfl
  rw [h1, h2, h3, h4, c2Speed_dist]
  exact calculateNewPosition_quarter

theorem c2Cfg_candidate_dist :
    distanceFromCenter c2Cfg (gpsCandidate c2St 1).1 (gpsCandidate c2St 1).2
      = 6371000 * (Real.pi / 2) := by
  rw [c2St_candidate]
  show distanceFromCenter c2Cfg 90 0 = _
  rw [distanceFromCenter]
  rw [show c2Cfg.latitude = (0:ℝ) from rfl, show c2Cfg.longitude = (0:ℝ) from rfl]
  exact calculateDistance_quarter

/-- With a center at the origin, zero radius and low/medium jitter, a
moved candidate is clamped exactly back to the origin. -/
theorem updatePosition_clamp_origin (cfg : MotionConfig)
    (hla : cfg.latitude = 0) (hlo : cfg.longitude = 0) (hr : cfg.radius = 0)
    (hj : ¬cfg.jitter > 0.5) :
    (updatePosition cfg c2St 1 0.5).lat = 0 ∧
    (updatePosition cfg c2St 1 0.5).lon = 0 := by
  have hdt : ¬(1 : ℝ) ≤ 0 := by norm_num
  have hgt : distanceFromCenter cfg (gpsCandidate c2St 1).1
      (gpsCandidate c2St 1).2 > cfg.radius := by
    rw [c2St_candidate, hr]
    show (0 : ℝ) < distanceFromCenter cfg 90 0
    rw [distanceFromCenter, hla, hlo, calculateDistance_quarter]
    positivity
  simp only [updatePosition, hdt, hgt, hj, if_false, if_true]
  rw [hla, hlo, hr,
    calculateNewPosition_zero 0 0 _ (by norm_num) (by norm_num) (by norm_num)
      (by norm_num)]
  exact ⟨rfl, rfl⟩

/-- With a center at the origin, high jitter, and a radius smaller than a
quarter circumference, the bounced candidate (zero course perturbation) is
committed at the north pole, far outside the radius. -/
theorem updatePosition_bounce_quarter (cfg : MotionConfig)
    (hla : cfg.latitude = 0) (hlo : cfg.longitude = 0)
    (hj : cfg.jitter > 0.5) (hrlt : cfg.radius < 6371000 * (Real.pi / 2)) :
    (updatePosition cfg c2St 1 0.5).lat = 90 ∧
    (updatePosition cfg c2St 1 0.5).lon = 0 := by
  have hdt : ¬(1 : ℝ) ≤ 0 := by norm_num
  have hgt : distanceFromCenter cfg (gpsCandidate c2St 1).1
      (gpsCandidate c2St 1).2 > cfg.radius := by
    rw [c2St_candidate]
    show distanceFromCenter cfg 90 0 > cfg.radius
    rw [distanceFromCenter, hla, hlo, calculateDistance_quarter]
    exact hrlt
  have hcourse2 : normalizeCourse (c2St.course + ((0.5 : ℝ) - 0.5) * 60) = 0 := by
    have h0 : c2St.course + ((0.5 : ℝ) - 0.5) * 60 = 0 := by
      rw [show c2St.course = (0:ℝ) from rfl]
      norm_num
    rw [h0, normalizeCourse_of_mem le_rfl (by norm_num)]
  simp only [updatePosition, hdt, hgt, hj, if_false, if_true, hcourse2]
  rw [show c2St.lat = (0:ℝ) from rfl, show c2St.lon = (0:ℝ) from rfl,
    show c2St.speed = c2Speed from rfl, c2Speed_dist]
  rw [calculateNewPosition_quarter]
  exact ⟨rfl, rfl⟩

/-- Counterexample to C2 as stated, on `updatePosition` of
`gps/simulator.go` (which checks the radius constraint without a
`Radius > 0` guard).  First half: with `Radius = 0` and jitter `0.1`, a
candidate that moved to latitude 90 is clamped back to the origin — the
radius constraint *is* applied and the position *is* clamped toward the
origin.  Second half: with `Radius = 1` and jitter `0.7` (a valid config),
one tick ends at distance `6371000·π/2 > Radius·(1+1)` from the origin,
refuting the fixed-tolerance bound `R·(1+ε)` for any small `ε`. -/
theorem C2_counterexample :
    c2Cfg.radius = 0 ∧ (0 : ℝ) ≤ c2Cfg.jitter ∧ c2Cfg.jitter ≤ 1 ∧
    0 < distanceFromCenter c2Cfg (gpsCandidate c2St 1).1 (gpsCandidate c2St 1).2 ∧
    (gpsCandidate c2St 1).1 = 90 ∧
    (updatePosition c2Cfg c2St 1 0.5).lat = 0 ∧
    (updatePosition c2Cfg c2St 1 0.5).lon = 0 ∧
    (updatePosition c2Cfg c2St 1 0.5).lat ≠ (gpsCandidate c2St 1).1 ∧
    c2bCfg.radius = 1 ∧ (0 : ℝ) ≤ c2bCfg.jitter ∧ c2bCfg.jitter ≤ 1 ∧
    distanceFromCenter c2bCfg (updatePosition c2bCfg c2St 1 0.5).lat
        (updatePosition c2bCfg c2St 1 0.5).lon > c2bCfg.radius * (1 + 1) := by
  have hX : (0 : ℝ) < 6371000 * (Real.pi / 2) := by positivity
  obtain ⟨hclat, hclon⟩ := updatePosition_clamp_origin c2Cfg rfl rfl rfl
    (by norm_num [c2Cfg])
  have hblt : c2bCfg.radius < 6371000 * (Real.pi / 2) := by
    rw [show c2bCfg.radius = (1:ℝ) from rfl]
    nlinarith [Real.pi_gt_three]
  obtain ⟨hblat, hblon⟩ := updatePosition_bounce_quarter c2bCfg rfl rfl
    (by norm_num [c2bCfg]) hblt
  refine ⟨rfl, by norm_num [c2Cfg], by norm_num [c2Cfg], ?_, ?_, hclat, hclon,
    ?_, rfl, by norm_num [c2bCfg], by norm_num [c2bCfg], ?_⟩
  · rw [c2Cfg_candidate_dist]
    exact hX
  · rw [c2St_candidate]
  · rw [hclat, c2St_candidate]
    norm_num
  · rw [hblat, hblon]
    have hd : distanceFromCenter c2bCfg 90 0 = 6371000 * (Real.pi / 2) := by
      rw [distanceFromCenter]
      rw [show c2bCfg.latitude = (0:ℝ) from rfl,
        show c2bCfg.longitude = (0:ℝ) from rfl]
      exact calculateDistance_quarter
    rw [hd, show c2bCfg.radius = (1:ℝ) from rfl]
    nlinarith [Real.pi_gt_three]

/-- C2 (amended): the two `updatePosition` variants treat `Radius = 0`
differently, and no fixed tolerance bounds the high-jitter overshoot:
(1) the legacy flat-earth `updatePosition` (`part_004`) skips the radius
constraint entirely when `Radius = 0` — the unconstrained candidate is
committed; (2) the `gps`-package `updatePosition` checks the constraint
even when `Radius = 0`, so with jitter `≤ 0.5` any candidate at positive
distance from the origin is clamped exactly back to the origin;
(3) for every `ε > 0` there are a valid config with `Radius > 0` and a
state whose post-update distance from the origin exceeds `Radius·(1+ε)`
(high-jitter bounce commits the recomputed candidate without re-checking
the radius). -/
theorem C2_radius_policy :
    (∀ (cfg : MotionConfig) (st : MotionState) (dt jA jD rB : ℝ),
      cfg.radius = 0 → ¬dt ≤ 0 →
      legacyUpdatePosition cfg st dt jA jD rB =
        { st with
            lat := (legacyCandidate cfg st dt jA jD).1
            lon := (legacyCandidate cfg st dt jA jD).2 }) ∧
    (∀ (cfg : MotionConfig) (st : MotionState) (dt rB : ℝ),
      cfg.radius = 0 → ¬dt ≤ 0 → ¬cfg.jitter > 0.5 →
      -90 ≤ cfg.latitude → cfg.latitude ≤ 90 →
      -180 ≤ cfg.longitude → cfg.longitude ≤ 180 →
      0 < distanceFromCenter cfg (gpsCandidate st dt).1 (gpsCandidate st dt).2 →
      (updatePosition cfg st dt rB).lat = cfg.latitude ∧
      (updatePosition cfg st dt rB).lon = cfg.longitude) ∧
    (∀ ε : ℝ, 0 < ε → ∃ (cfg : MotionConfig) (st : MotionState),
      0 < cfg.radius ∧ 0 ≤ cfg.jitter ∧ cfg.jitter ≤ 1 ∧
      distanceFromCenter cfg (updatePosition cfg st 1 0.5).lat
          (updatePosition cfg st 1 0.5).lon > cfg.radius * (1 + ε)) := by
  refine ⟨?_, ?_, ?_⟩
  · intro cfg st dt jA jD rB hr hdt
    have hnr : ¬cfg.radius > 0 := by
      rw [hr]
      norm_num
    simp only [legacyUpdatePosition, hdt, hnr, if_false]
  · intro cfg st dt rB hr hdt hj hla hlb hlo hlo2 hdist
    have hgt : distanceFromCenter cfg (gpsCandidate st dt).1
        (gpsCandidate st dt).2 > cfg.radius := by
      rw [hr]
      exact hdist
    simp only [updatePosition, hdt, hgt, hj, if_false, if_true]
    rw [hr, calculateNewPosition_zero cfg.latitude cfg.longitude _ hla hlb
      hlo hlo2]
    exact ⟨rfl, rfl⟩
  · intro ε hε
    have hX : (0 : ℝ) < 6371000 * (Real.pi / 2) := by positivity
    have hA : (0 : ℝ) < 1 + ε := by linarith
    refine ⟨{ latitude := 0
              longitude := 0
              radius := 6371000 * (Real.pi / 2) / (2 * (1 + ε))
              jitter := 0.7
              speed := c2Speed
              course := 0
              altitude := 0
              altitudeJitter := 0 },
      c2St, ?_, by norm_num, by norm_num, ?_⟩
    · positivity
    · obtain ⟨hlat, hlon⟩ := updatePosition_bounce_quarter
        { latitude := 0
          longitude := 0
          radius := 6371000 * (Real.pi / 2) / (2 * (1 + ε))
          jitter := 0.7
          speed := c2Speed
          course := 0
          altitude := 0
          altitudeJitter := 0 } rfl rfl (by norm_num)
        (div_lt_self hX (by linarith))
      rw [hlat, hlon]
      have hd : distanceFromCenter
          { latitude := 0
            longitude := 0
            radius := 6371000 * (Real.pi / 2) / (2 * (1 + ε))
            jitter := 0.7
            speed := c2Speed
            course := 0
            altitude := 0
            altitudeJitter := 0 } (90 : ℝ) (0 : ℝ)
          = 6371000 * (Real.pi / 2) := by
        rw [distanceFromCenter]
        exact calculateDistance_quarter
      rw [hd]
      have hhalf : 6371000 * (Real.pi / 2) / (2 * (1 + ε)) * (1 + ε)
          = 6371000 * (Real.pi / 2) / 2 := by
        field_simp
        ring
      show 6371000 * (Real.pi / 2) / (2 * (1 + ε)) * (1 + ε)
          < 6371000 * (Real.pi / 2)
      rw [hhalf]
      linarith

/-- Witness for C2 (amended): part 1 at a zero-radius legacy config; part
2 at `c2Cfg`/`c2St` (hypotheses discharged by the quarter-circumference
computation); part 3 at `ε = 1`. -/
theorem C2_radius_policy_witness :
    (legacyUpdatePosition c2LegacyCfg c2St 1 0 0 0 =
      { c2St with
          lat := (legacyCandidate c2LegacyCfg c2St 1 0 0).1
          lon := (legacyCandidate c2LegacyCfg c2St 1 0 0).2 }) ∧
    ((updatePosition c2Cfg c2St 1 0.5).lat = c2Cfg.latitude ∧
      (updatePosition c2Cfg c2St 1 0.5).lon = c2Cfg.longitude) ∧
    (∃ (cfg : MotionConfig) (st : MotionState),
      0 < cfg.radius ∧ 0 ≤ cfg.jitter ∧ cfg.jitter ≤ 1 ∧
      distanceFromCenter cfg (updatePosition cfg st 1 0.5).lat
          (updatePosition cfg st 1 0.5).lon > cfg.radius * (1 + 1)) :=
  ⟨C2_radius_policy.1 c2LegacyCfg c2St 1 0 0 0 rfl (by norm_num),
    C2_radius_policy.2.1 c2Cfg c2St 1 0.5 rfl (by norm_num)
      (by norm_num [c2Cfg]) (by norm_num [c2Cfg]) (by norm_num [c2Cfg])
      (by norm_num [c2Cfg]) (by norm_num [c2Cfg])
      (by rw [c2Cfg_candidate_dist]; positivity),
    C2_radius_policy.2.2 1 (by norm_num)⟩

end GpsSim
